import Mathlib

/-!
# Verification of the kyuyo-system payroll engine

Shallow embedding of the payroll core of `backend/app` (services
`overtime_calculator.py`, `tax_calculator.py`, `insurance_calculator.py`,
`payroll_calculator.py` and the API state-machine endpoints in
`api/v1/payroll.py`, `api/v1/year_end.py`), together with theorems about it.

Modelling conventions:
* Python integers are `ℤ`; dates are `ℤ` (ordinal days, only compared);
  `Decimal`/float rates are `ℚ` and `math.floor` is `Int.floor`.
* Python float arithmetic in the premium/rate formulas is modelled by exact
  rational arithmetic (the idealized semantics of the same formulas).
* Database rows are explicit lists; a SQL query `ORDER BY c DESC LIMIT 1`
  is modelled by a fold keeping the first row (in list order) among those
  with the greatest `c`, list order standing in for the arbitrary order the
  database returns tied rows in.
* Tenant (`company_id`) filters that every query applies uniformly are not
  modelled except where a claim depends on scoping (insurance-rate lookup).
-/

namespace Kyuyo

/-! ## OvertimeCalculator (`services/overtime_calculator.py`) -/

/-- The minute fields read off an `AttendanceRecord`
(`payroll_calculator.py` lines 53-58). -/
structure AttendanceMinutes where
  overtime_within_statutory_minutes : ℤ := 0
  overtime_statutory_minutes : ℤ := 0
  night_minutes : ℤ := 0
  statutory_holiday_minutes : ℤ := 0
  non_statutory_holiday_minutes : ℤ := 0
  night_overtime_minutes : ℤ := 0
  night_holiday_minutes : ℤ := 0
  night_overtime_holiday_minutes : ℤ := 0
deriving Repr, DecidableEq

/-- `OvertimeResult` dataclass of `overtime_calculator.py`. -/
structure OvertimeResult where
  overtime_statutory_pay : ℤ
  overtime_within_statutory_pay : ℤ
  night_pay : ℤ
  statutory_holiday_pay : ℤ
  non_statutory_holiday_pay : ℤ
  over60h_premium_pay : ℤ
  night_overtime_pay : ℤ
  night_holiday_pay : ℤ
  night_overtime_holiday_pay : ℤ
  total_overtime_pay : ℤ
deriving Repr, DecidableEq

namespace OvertimeCalculator

/-- `MONTHLY_OVERTIME_THRESHOLD = 3600` (60 hours in minutes). -/
def MONTHLY_OVERTIME_THRESHOLD : ℤ := 3600

/-- `OvertimeCalculator.calculate` of `overtime_calculator.py`:
per-minute rate `base_hourly_rate / 60`, each component independently
floored to integer yen, statutory overtime split at 3600 minutes. -/
def calculate (base_hourly_rate : ℤ) (attendance : AttendanceMinutes) :
    OvertimeResult :=
  let rate : ℚ := (base_hourly_rate : ℚ) / 60
  let over_60h_minutes : ℤ :=
    max 0 (attendance.overtime_statutory_minutes - MONTHLY_OVERTIME_THRESHOLD)
  let normal_overtime_minutes : ℤ :=
    attendance.overtime_statutory_minutes - over_60h_minutes
  let overtime_within_statutory_pay : ℤ :=
    Int.floor (rate * (attendance.overtime_within_statutory_minutes : ℚ))
  let overtime_statutory_pay : ℤ :=
    Int.floor (rate * (normal_overtime_minutes : ℚ) * (1 + 1/4))
  let over60h_premium_pay : ℤ :=
    Int.floor (rate * (over_60h_minutes : ℚ) * (1 + 1/2))
  let night_pay : ℤ :=
    Int.floor (rate * (attendance.night_minutes : ℚ) * (1/4))
  let statutory_holiday_pay : ℤ :=
    Int.floor (rate * (attendance.statutory_holiday_minutes : ℚ) * (1 + 7/20))
  let non_statutory_holiday_pay : ℤ :=
    Int.floor (rate * (attendance.non_statutory_holiday_minutes : ℚ))
  let night_overtime_pay : ℤ :=
    Int.floor (rate * (attendance.night_overtime_minutes : ℚ) * (1/2))
  let night_holiday_pay : ℤ :=
    Int.floor (rate * (attendance.night_holiday_minutes : ℚ) * (3/5))
  let night_overtime_holiday_pay : ℤ :=
    Int.floor (rate * (attendance.night_overtime_holiday_minutes : ℚ) *
      (1/4 + 7/20 + 1/4))
  { overtime_statutory_pay := overtime_statutory_pay
    overtime_within_statutory_pay := overtime_within_statutory_pay
    night_pay := night_pay
    statutory_holiday_pay := statutory_holiday_pay
    non_statutory_holiday_pay := non_statutory_holiday_pay
    over60h_premium_pay := over60h_premium_pay
    night_overtime_pay := night_overtime_pay
    night_holiday_pay := night_holiday_pay
    night_overtime_holiday_pay := night_overtime_holiday_pay
    total_overtime_pay :=
      overtime_within_statutory_pay + overtime_statutory_pay +
      over60h_premium_pay + night_pay + statutory_holiday_pay +
      non_statutory_holiday_pay + night_overtime_pay + night_holiday_pay +
      night_overtime_holiday_pay }

end OvertimeCalculator

/-! ## TaxCalculator (`services/tax_calculator.py`) -/

/-- One row of the global `income_tax_tables` table
(`models/globals.py`, `IncomeTaxTable`). -/
structure IncomeTaxRow where
  table_type : String
  valid_from : ℤ
  valid_to : Option ℤ
  income_from : ℤ
  income_to : Option ℤ
  dependents_count : ℤ
  tax_amount : ℤ
deriving Repr, DecidableEq

/-- The `WHERE` clauses of the bracket query in
`TaxCalculator.calculate_income_tax` (`tax_calculator.py` lines 43-52):
validity window covers the target date (`valid_to` null = open-ended),
`income_from ≤ taxable_income`, `income_to` null or `> taxable_income`,
and exact `dependents_count` match. -/
def taxRowMatches (table_type : String) (taxable_income dependents_count
    target_date : ℤ) (r : IncomeTaxRow) : Bool :=
  r.table_type == table_type &&
  decide (r.valid_from ≤ target_date) &&
  decide (r.income_from ≤ taxable_income) &&
  r.dependents_count == dependents_count &&
  (match r.valid_to with
   | none => true
   | some v => decide (target_date ≤ v)) &&
  (match r.income_to with
   | none => true
   | some v => decide (taxable_income < v))

/-- One step of the `ORDER BY f DESC LIMIT 1` fold: keep the accumulator
unless the new row is strictly greater. -/
def pickStep {α : Type} (f : α → ℤ) (acc : Option α) (r : α) : Option α :=
  match acc with
  | none => some r
  | some b => if f b < f r then some r else acc

/-- Models `ORDER BY f DESC LIMIT 1` over a list of rows: the first row (in
list order) among those with the greatest value of `f`.  List order stands
in for the arbitrary order in which the database returns tied rows. -/
def pickLatestBy {α : Type} (f : α → ℤ) (l : List α) : Option α :=
  l.foldl (pickStep f) none

namespace TaxCalculator

/-- The bracket query of `calculate_income_tax`: filter by
`taxRowMatches`, then `ORDER BY income_from DESC LIMIT 1`. -/
def findTaxRow (rows : List IncomeTaxRow) (table_type : String)
    (taxable_income dependents_count target_date : ℤ) : Option IncomeTaxRow :=
  pickLatestBy (fun r => r.income_from)
    (rows.filter (taxRowMatches table_type taxable_income dependents_count target_date))

/-- Table-type dispatch at the top of `calculate_income_tax`
(`tax_calculator.py` lines 34-40). -/
def tableTypeFor (tax_category : String) (is_monthly : Bool) : String :=
  if tax_category == "kou" then
    if is_monthly then "monthly_kou" else "daily_kou"
  else if tax_category == "otsu" then "otsu"
  else "hei"

/-- `TaxCalculator.calculate_income_tax`: bracket lookup, with the
off-table fallback `floor(taxable × 0.0358)` for `otsu`/`hei` and `0` for
`kou` (`tax_calculator.py` lines 57-67). -/
def calculate_income_tax (rows : List IncomeTaxRow) (taxable_income : ℤ)
    (tax_category : String) (dependents_count target_date : ℤ)
    (is_monthly : Bool) : ℤ :=
  match findTaxRow rows (tableTypeFor tax_category is_monthly)
      taxable_income dependents_count target_date with
  | some row => row.tax_amount
  | none =>
    if tax_category == "otsu" then
      Int.floor ((taxable_income : ℚ) * (358/10000))
    else if tax_category == "hei" then
      Int.floor ((taxable_income : ℚ) * (358/10000))
    else 0

end TaxCalculator

/-! ## InsuranceCalculator (`services/insurance_calculator.py`) -/

/-- One row of `insurance_rates` (`models/insurance.py`); `company_id` is
null for a global row. -/
structure InsuranceRate where
  insurance_type : String
  valid_from : ℤ
  valid_to : Option ℤ
  prefecture : Option String
  employee_rate : ℚ
  care_insurance_rate : Option ℚ
  company_id : Option ℤ
deriving Repr, DecidableEq

/-- `companies` columns read by the calculators. -/
structure Company where
  health_insurance_prefecture : Option String
  care_insurance_applicable : Bool
deriving Repr, DecidableEq

/-- The scope-independent `WHERE` clauses of `InsuranceCalculator._get_rate`
(`insurance_calculator.py` lines 31-38): type match, validity window covers
the target date (null `valid_to` = open-ended), and — only for
`insurance_type = "health"` with a prefecture given — prefecture match. -/
def rateMatches (insurance_type : String) (target_date : ℤ)
    (prefecture : Option String) (r : InsuranceRate) : Bool :=
  r.insurance_type == insurance_type &&
  decide (r.valid_from ≤ target_date) &&
  (match r.valid_to with
   | none => true
   | some v => decide (target_date ≤ v)) &&
  (if insurance_type == "health" then
    match prefecture with
    | some p => r.prefecture == some p
    | none => true
   else true)

namespace InsuranceCalculator

/-- `InsuranceCalculator._get_rate`: prefer the tenant-scoped row
(`company_id = current`) over a global row (`company_id` null); within a
scope, `ORDER BY valid_from DESC LIMIT 1`. -/
def getRate (rows : List InsuranceRate) (company_id : ℤ)
    (insurance_type : String) (target_date : ℤ)
    (prefecture : Option String) : Option InsuranceRate :=
  let matching := rows.filter (rateMatches insurance_type target_date prefecture)
  match pickLatestBy (fun r => r.valid_from)
      (matching.filter (fun r => r.company_id == some company_id)) with
  | some r => some r
  | none =>
    pickLatestBy (fun r => r.valid_from)
      (matching.filter (fun r => r.company_id == none))

/-- `calculate_health_insurance`: prefecture defaults to `"東京都"` when the
company field is unset (or empty, by Python truthiness); care insurance only
for age in `[40, 65)`, `care_insurance_applicable`, and a non-null non-zero
`care_insurance_rate`.  Returns `(health, care)`. -/
def calculate_health_insurance (rows : List InsuranceRate)
    (company : Company) (company_id : ℤ) (gross_salary target_date : ℤ)
    (employee_age : Option ℤ) : ℤ × ℤ :=
  let prefecture :=
    match company.health_insurance_prefecture with
    | some p => if p = "" then "東京都" else p
    | none => "東京都"
  match getRate rows company_id "health" target_date (some prefecture) with
  | none => (0, 0)
  | some rate =>
    let health := Int.floor ((gross_salary : ℚ) * rate.employee_rate)
    let care : ℤ :=
      match employee_age with
      | some age =>
        if age ≠ 0 ∧ 40 ≤ age ∧ age < 65 ∧ company.care_insurance_applicable then
          match rate.care_insurance_rate with
          | some c => if c = 0 then 0 else Int.floor ((gross_salary : ℚ) * c)
          | none => 0
        else 0
      | none => 0
    (health, care)

/-- `calculate_pension_insurance`: `floor(gross × employee_rate)`, `0` when
no rate row is found. -/
def calculate_pension_insurance (rows : List InsuranceRate)
    (company_id : ℤ) (gross_salary target_date : ℤ) : ℤ :=
  match getRate rows company_id "pension" target_date none with
  | none => 0
  | some rate => Int.floor ((gross_salary : ℚ) * rate.employee_rate)

/-- `calculate_employment_insurance`: `floor(gross × employee_rate)`, `0`
when no rate row is found. -/
def calculate_employment_insurance (rows : List InsuranceRate)
    (company_id : ℤ) (gross_salary target_date : ℤ) : ℤ :=
  match getRate rows company_id "employment" target_date none with
  | none => 0
  | some rate => Int.floor ((gross_salary : ℚ) * rate.employee_rate)

end InsuranceCalculator

/-! ## PayrollCalculator (`services/payroll_calculator.py`) -/

/-- The `salary_settings` JSON payload; `none` fields model missing keys
(`salary_settings.get(key, default)`). The all-`none` value also models a
null payload (`employee.salary_settings or {}`). -/
structure SalarySettings where
  monthly_salary : Option ℤ := none
  daily_rate : Option ℤ := none
  hourly_rate : Option ℤ := none
  base_amount : Option ℤ := none
  commission_amount : Option ℤ := none
  monthly_prescribed_hours : Option ℤ := none
deriving Repr, DecidableEq

/-- `employees` columns read by `PayrollCalculator.calculate`. -/
structure Employee where
  salary_type : String
  salary_settings : SalarySettings := {}
  tax_category : String := "kou"
  dependents_count : ℤ := 0
  birth_date : Option ℤ := none
  social_insurance_enrolled : Bool := false
  pension_insurance_enrolled : Bool := false
  employment_insurance_enrolled : Bool := false
  resident_tax_monthly_amount : Option ℤ := none
deriving Repr, DecidableEq

/-- `attendance_records` columns read by `PayrollCalculator.calculate`.
The minute fields and `absence_days` are non-nullable with default 0 in
`models/attendance.py`; `work_days`, `total_work_minutes` and
`statutory_work_days` are nullable. -/
structure AttendanceRecord where
  work_days : Option ℤ := none
  total_work_minutes : Option ℤ := none
  absence_days : ℤ := 0
  statutory_work_days : Option ℤ := none
  minutes : AttendanceMinutes := {}
deriving Repr, DecidableEq

/-- One row of the `EmployeeAllowance × AllowanceType` join as returned by
the allowance query (`payroll_calculator.py` lines 130-142); the date-range
and `is_active` filters are applied by the database and are outside this
model. -/
structure AllowanceRow where
  code : String
  name : String
  amount : ℤ
  is_taxable : Bool
  is_social_insurance_target : Bool
  is_employment_insurance_target : Bool
deriving Repr, DecidableEq

/-- `commute_details` columns read by `PayrollCalculator.calculate`. -/
structure CommuteDetail where
  monthly_cost : Option ℤ := none
  non_taxable_limit : Option ℤ := none
deriving Repr, DecidableEq

/-- One element of the `items` list built by `PayrollCalculator.calculate`. -/
structure Item where
  item_type : String
  item_code : String
  item_name : String
  amount : ℤ
  is_taxable : Bool
  is_social_insurance_target : Bool
  is_employment_insurance_target : Bool
  notes : Option String := none
deriving Repr, DecidableEq

/-- The dict returned by `PayrollCalculator.calculate`: totals, the item
list, and the `details` scalars the claims refer to. -/
structure CalcResult where
  total_earnings : ℤ
  total_deductions : ℤ
  net_pay : ℤ
  items : List Item
  base_salary : ℤ
  base_hourly : ℤ
  gross_salary : ℤ
  social_insurance_total : ℤ
  taxable_earnings : ℤ
  income_tax : ℤ
deriving Repr, DecidableEq

/-- Read-only environment of one calculation run: the company row, the
insurance-rate table, the income-tax table and the tenant id. -/
structure CalcEnv where
  company : Company
  company_id : ℤ
  insurance_rates : List InsuranceRate
  tax_rows : List IncomeTaxRow
deriving Repr, DecidableEq

namespace PayrollCalculator

/-- `DEFAULT_MONTHLY_HOURS = 160`. -/
def DEFAULT_MONTHLY_HOURS : ℤ := 160

/-- The non-taxable commute portion
(`payroll_calculator.py` lines 167-171): `0` unless a commute row with a
truthy `monthly_cost` exists, else `min(monthly_cost,
non_taxable_limit or 150000)`. -/
def commuteNontaxable (commute : Option CommuteDetail) : ℤ :=
  match commute with
  | none => 0
  | some cd =>
    match cd.monthly_cost with
    | none => 0
    | some c =>
      if c = 0 then 0
      else
        min c (match cd.non_taxable_limit with
               | none => 150000
               | some l => if l = 0 then 150000 else l)

/-- The commute earning amount (`commute_amount`): `monthly_cost` when
truthy, else `0`. -/
def commuteAmount (commute : Option CommuteDetail) : ℤ :=
  match commute with
  | none => 0
  | some cd =>
    match cd.monthly_cost with
    | none => 0
    | some c => if c = 0 then 0 else c

/-- Base salary by `salary_type` (`payroll_calculator.py` lines 60-80).
For `monthly` the absence deduction
`floor(monthly_salary / (statutory_work_days or 20)) × absence_days` is
subtracted without any clamping. -/
def baseSalary (employee : Employee) (attendance : Option AttendanceRecord)
    (work_days total_work_minutes : ℤ) : ℤ :=
  let ss := employee.salary_settings
  if employee.salary_type = "monthly" then
    let ms := ss.monthly_salary.getD 0
    match attendance with
    | some att =>
      if 0 < att.absence_days then
        let statutory_days : ℤ :=
          match att.statutory_work_days with
          | none => 20
          | some v => if v = 0 then 20 else v
        let daily_rate := Int.floor ((ms : ℚ) / (statutory_days : ℚ))
        ms - daily_rate * att.absence_days
      else ms
    | none => ms
  else if employee.salary_type = "daily" then
    ss.daily_rate.getD 0 * work_days
  else if employee.salary_type = "hourly" then
    Int.floor ((ss.hourly_rate.getD 0 : ℚ) * ((total_work_minutes : ℚ) / 60))
  else if employee.salary_type = "commission" then
    ss.base_amount.getD 0 + ss.commission_amount.getD 0
  else 0

/-- Base hourly rate for the premium calculation
(`payroll_calculator.py` lines 91-103). -/
def baseHourly (employee : Employee) (base_salary : ℤ) : ℤ :=
  let ss := employee.salary_settings
  let monthly_hours := ss.monthly_prescribed_hours.getD DEFAULT_MONTHLY_HOURS
  if employee.salary_type = "monthly" then
    Int.floor ((ss.monthly_salary.getD 0 : ℚ) / (monthly_hours : ℚ))
  else if employee.salary_type = "daily" then
    Int.floor ((ss.daily_rate.getD 0 : ℚ) / 8)
  else if employee.salary_type = "hourly" then
    ss.hourly_rate.getD 0
  else
    Int.floor ((base_salary : ℚ) /
      ((if 0 < monthly_hours then monthly_hours else 160) : ℚ))

/-- The `overtime_items` table of `payroll_calculator.py` lines 108-117:
`(item_code, item_name, amount)` triples, in source order.  The
`night_overtime_holiday_pay` component of `OvertimeResult` does not appear
in this list in the source. -/
def overtimePairs (ot : OvertimeResult) : List (String × String × ℤ) :=
  [("overtime_statutory", "時間外手当", ot.overtime_statutory_pay),
   ("overtime_within", "法定内残業手当", ot.overtime_within_statutory_pay),
   ("night_work", "深夜手当", ot.night_pay),
   ("holiday_work", "休日手当", ot.statutory_holiday_pay),
   ("non_statutory_holiday", "所定休日手当", ot.non_statutory_holiday_pay),
   ("over60h_premium", "60時間超割増", ot.over60h_premium_pay),
   ("night_overtime", "深夜残業手当", ot.night_overtime_pay),
   ("night_holiday", "深夜休日手当", ot.night_holiday_pay)]

/-- The deduction-item pattern repeated for each deduction in
`payroll_calculator.py` (`if amount > 0: items.append({...})`): a singleton
item with the three flags false when the amount is positive, else nothing. -/
def deductionItems (code name : String) (amount : ℤ) : List Item :=
  if 0 < amount then
    [{ item_type := "deduction", item_code := code, item_name := name,
       amount := amount, is_taxable := false,
       is_social_insurance_target := false,
       is_employment_insurance_target := false }]
  else []

/-- `PayrollCalculator.calculate` (`payroll_calculator.py` lines 31-295).
Inputs that the source loads from the database inside the function
(attendance row, filtered allowance join, first active commute row) are
parameters here; `target_date` is `period.payment_date`.  Earnings and
deduction totals are accumulated alongside the item list exactly as the
source pairs each `items.append` with a `total_... +=`. -/
def calculate (env : CalcEnv) (employee : Employee)
    (attendance : Option AttendanceRecord) (allowances : List AllowanceRow)
    (commute : Option CommuteDetail) (target_date : ℤ) : CalcResult :=
  let work_days : ℤ :=
    match attendance with
    | some a => a.work_days.getD 0
    | none => 0
  let total_work_minutes : ℤ :=
    match attendance with
    | some a => a.total_work_minutes.getD 0
    | none => 0
  -- 1. base salary
  let base_salary := baseSalary employee attendance work_days total_work_minutes
  let base_item : Item :=
    { item_type := "earning", item_code := "base_salary", item_name := "基本給",
      amount := base_salary, is_taxable := true,
      is_social_insurance_target := true, is_employment_insurance_target := true }
  -- 2. overtime premiums (skipped entirely when there is no attendance row)
  let base_hourly := baseHourly employee base_salary
  let ot_pairs : List (String × String × ℤ) :=
    match attendance with
    | none => []
    | some att => overtimePairs (OvertimeCalculator.calculate base_hourly att.minutes)
  let pos_ot := ot_pairs.filter (fun p => decide (0 < p.2.2))
  let ot_items : List Item :=
    pos_ot.map (fun p =>
      { item_type := "earning", item_code := p.1, item_name := p.2.1,
        amount := p.2.2, is_taxable := true,
        is_social_insurance_target := false,
        is_employment_insurance_target := true })
  let ot_total : ℤ := pos_ot.foldl (fun s p => s + p.2.2) 0
  -- 3. allowances
  let allowance_items : List Item :=
    allowances.map (fun a =>
      { item_type := "earning", item_code := "allowance_" ++ a.code,
        item_name := a.name, amount := a.amount, is_taxable := a.is_taxable,
        is_social_insurance_target := a.is_social_insurance_target,
        is_employment_insurance_target := a.is_employment_insurance_target })
  let allowance_total : ℤ := allowances.foldl (fun s a => s + a.amount) 0
  -- 4. commute
  let commute_amount := commuteAmount commute
  let commute_nontaxable := commuteNontaxable commute
  let commute_items : List Item :=
    if commute_amount = 0 then []
    else
      [{ item_type := "earning", item_code := "commute", item_name := "通勤手当",
         amount := commute_amount, is_taxable := false,
         is_social_insurance_target := true,
         is_employment_insurance_target := true,
         notes := some "非課税限度額" }]
  -- 5. deductions; gross = total earnings so far
  let gross_salary := base_salary + ot_total + allowance_total + commute_amount
  let employee_age : Option ℤ :=
    match employee.birth_date with
    | some bd => some (Int.fdiv (target_date - bd) 365)
    | none => none
  let hc : ℤ × ℤ :=
    if employee.social_insurance_enrolled then
      InsuranceCalculator.calculate_health_insurance env.insurance_rates
        env.company env.company_id gross_salary target_date employee_age
    else (0, 0)
  let health_items := deductionItems "health_insurance" "健康保険料" hc.1
  let care_items := deductionItems "care_insurance" "介護保険料" hc.2
  let pension : ℤ :=
    if employee.pension_insurance_enrolled then
      InsuranceCalculator.calculate_pension_insurance env.insurance_rates
        env.company_id gross_salary target_date
    else 0
  let pension_items := deductionItems "pension_insurance" "厚生年金保険料" pension
  let emp_ins : ℤ :=
    if employee.employment_insurance_enrolled then
      InsuranceCalculator.calculate_employment_insurance env.insurance_rates
        env.company_id gross_salary target_date
    else 0
  let emp_ins_items := deductionItems "employment_insurance" "雇用保険料" emp_ins
  let social_insurance_total : ℤ :=
    (if 0 < hc.1 then hc.1 else 0) + (if 0 < hc.2 then hc.2 else 0) +
    (if 0 < pension then pension else 0) + (if 0 < emp_ins then emp_ins else 0)
  -- income tax on max(0, gross − non-taxable commute − social insurance)
  let taxable_earnings : ℤ :=
    max 0 (gross_salary - commute_nontaxable - social_insurance_total)
  let income_tax :=
    TaxCalculator.calculate_income_tax env.tax_rows taxable_earnings
      employee.tax_category employee.dependents_count target_date
      (employee.salary_type == "monthly")
  let income_tax_items := deductionItems "income_tax" "所得税" income_tax
  let resident_tax : ℤ :=
    match employee.resident_tax_monthly_amount with
    | some v => if 0 < v then v else 0
    | none => 0
  let resident_items := deductionItems "resident_tax" "住民税" resident_tax
  let total_deductions : ℤ :=
    social_insurance_total + (if 0 < income_tax then income_tax else 0) +
    resident_tax
  { total_earnings := gross_salary
    total_deductions := total_deductions
    net_pay := gross_salary - total_deductions
    items := [base_item] ++ ot_items ++ allowance_items ++ commute_items ++
      health_items ++ care_items ++ pension_items ++ emp_ins_items ++
      income_tax_items ++ resident_items
    base_salary := base_salary
    base_hourly := base_hourly
    gross_salary := gross_salary
    social_insurance_total := social_insurance_total
    taxable_earnings := taxable_earnings
    income_tax := income_tax }

end PayrollCalculator

/-! ## Payroll record state machine (`api/v1/payroll.py`)

The endpoints are modelled as pure transformations of an explicit database
state.  `next_id` models the autoincrement primary-key counter; only the
columns the claims mention are carried.  All rows belong to one tenant
(every source query filters by the caller's `company_id` uniformly). -/

/-- A `payroll_records` row. -/
structure RecordRow where
  id : ℤ
  group_id : ℤ
  employee_id : ℤ
  period_id : ℤ
  version : ℤ
  status : String
  payment_date : ℤ
  total_earnings : ℤ
  total_deductions : ℤ
  net_pay : ℤ
  cancellation_reason : Option String := none
  confirmed_by : Option ℤ := none
  cancelled_by : Option ℤ := none
deriving Repr, DecidableEq

/-- A `payroll_record_items` row. -/
structure ItemRow where
  record_id : ℤ
  item_type : String
  item_code : String
  item_name : String
  amount : ℤ
  is_taxable : Bool
  is_social_insurance_target : Bool
  is_employment_insurance_target : Bool
  display_order : ℤ
  notes : Option String := none
deriving Repr, DecidableEq

/-- A `payroll_histories` row; `source_record_id` models the
`new_values["source_record_id"]` entry when present. -/
structure HistoryRow where
  record_id : ℤ
  action : String
  changed_by : ℤ
  source_record_id : Option ℤ := none
  reason : Option String := none
deriving Repr, DecidableEq

/-- A `payroll_record_groups` row. -/
structure GroupRow where
  id : ℤ
  employee_id : ℤ
  period_id : ℤ
  current_payroll_record_id : Option ℤ := none
deriving Repr, DecidableEq

/-- The database state the payroll endpoints read and write. -/
structure Db where
  groups : List GroupRow
  records : List RecordRow
  items : List ItemRow
  history : List HistoryRow
  next_id : ℤ
deriving Repr, DecidableEq

/-- The errors the payroll endpoints raise (`HTTPException` 404 / 400). -/
inductive ApiError where
  | notFound : ApiError
  | invalidState : String → ApiError
deriving Repr, DecidableEq

/-- Record lookup by primary key. -/
def findRecord (db : Db) (record_id : ℤ) : Option RecordRow :=
  db.records.find? (fun r => r.id == record_id)

/-- The items of one record, in insertion order
(`ORDER BY display_order` coincides with it for records written here). -/
def itemsOf (db : Db) (record_id : ℤ) : List ItemRow :=
  db.items.filter (fun i => i.record_id == record_id)

/-- The body of the per-employee loop of `calculate_payroll`
(`payroll.py` lines 165-260): get-or-create the group, skip when the group
already has a draft (returning nothing for this employee), otherwise insert
a new record at `max(version)+1` with the calculation result's totals and
items, point the group at it, and append a `calculated` history row.
Returns the new state and the id of the created record, if any. -/
def calculateForEmployee (db : Db) (emp_id period_id payment_date : ℤ)
    (calcResult : CalcResult) (actor : ℤ) : Db × Option ℤ :=
  let found := db.groups.find?
    (fun g => g.employee_id == emp_id && g.period_id == period_id)
  let db1 : Db :=
    match found with
    | some _ => db
    | none =>
      { db with
        groups := db.groups ++
          [{ id := db.next_id, employee_id := emp_id, period_id := period_id }],
        next_id := db.next_id + 1 }
  let group : GroupRow :=
    match found with
    | some g => g
    | none => { id := db.next_id, employee_id := emp_id, period_id := period_id }
  if (db1.records.find?
      (fun r => r.group_id == group.id && r.status == "draft")).isSome then
    (db1, none)
  else
    let max_version := db1.records.foldl
      (fun m r => if r.group_id == group.id && m < r.version then r.version else m) 0
    let rid := db1.next_id
    let record : RecordRow :=
      { id := rid, group_id := group.id, employee_id := emp_id,
        period_id := period_id, version := max_version + 1, status := "draft",
        payment_date := payment_date,
        total_earnings := calcResult.total_earnings,
        total_deductions := calcResult.total_deductions,
        net_pay := calcResult.net_pay }
    let new_items : List ItemRow :=
      calcResult.items.enum.map (fun p =>
        { record_id := rid, item_type := p.2.item_type,
          item_code := p.2.item_code, item_name := p.2.item_name,
          amount := p.2.amount, is_taxable := p.2.is_taxable,
          is_social_insurance_target := p.2.is_social_insurance_target,
          is_employment_insurance_target := p.2.is_employment_insurance_target,
          display_order := (p.1 : ℤ) + 1, notes := p.2.notes })
    ({ groups := db1.groups.map (fun g =>
         if g.id == group.id then { g with current_payroll_record_id := some rid }
         else g),
       records := db1.records ++ [record],
       items := db1.items ++ new_items,
       history := db1.history ++
         [{ record_id := rid, action := "calculated", changed_by := actor }],
       next_id := rid + 1 }, some rid)

/-- The `calculate_payroll` endpoint over its employee list: folds
`calculateForEmployee` and returns the ids of the records it created
(`created_records`); employees skipped for an existing draft contribute
nothing to the returned list. -/
def calculatePayroll (db : Db) (employee_ids : List ℤ)
    (period_id payment_date : ℤ) (calcOf : ℤ → CalcResult) (actor : ℤ) :
    Db × List ℤ :=
  employee_ids.foldl
    (fun acc e =>
      let step := calculateForEmployee acc.1 e period_id payment_date (calcOf e) actor
      (step.1, acc.2 ++ (match step.2 with
                         | some rid => [rid]
                         | none => [])))
    (db, [])

/-- `confirm_payroll_record` (`payroll.py` lines 382-470): precondition
status = draft; stamps `confirmed_by` and appends a `confirmed` history
row.  The snapshot payload is not modelled (no claim refers to it). -/
def confirmPayrollRecord (db : Db) (record_id actor : ℤ) :
    Except ApiError Db :=
  match findRecord db record_id with
  | none => Except.error ApiError.notFound
  | some record =>
    if record.status ≠ "draft" then
      Except.error (ApiError.invalidState record.status)
    else
      Except.ok
        { db with
          records := db.records.map (fun r =>
            if r.id == record_id then
              { r with status := "confirmed", confirmed_by := some actor }
            else r),
          history := db.history ++
            [{ record_id := record_id, action := "confirmed", changed_by := actor }] }

/-- `cancel_payroll_record` (`payroll.py` lines 477-599): precondition
status = confirmed; marks the record cancelled with the reason and actor,
appends a `cancelled` history row, inserts a fresh draft at `version+1`
with the same totals, clones the line items onto the new record, repoints
the group's `current_payroll_record_id`, and appends a
`created_from_cancellation` history row carrying `source_record_id`.
Returns the new state and the new draft's id. -/
def cancelPayrollRecord (db : Db) (record_id : ℤ) (reason : String)
    (actor : ℤ) : Except ApiError (Db × ℤ) :=
  match findRecord db record_id with
  | none => Except.error ApiError.notFound
  | some record =>
    if record.status ≠ "confirmed" then
      Except.error (ApiError.invalidState record.status)
    else
      let new_id := db.next_id
      let new_record : RecordRow :=
        { id := new_id, group_id := record.group_id,
          employee_id := record.employee_id, period_id := record.period_id,
          version := record.version + 1, status := "draft",
          payment_date := record.payment_date,
          total_earnings := record.total_earnings,
          total_deductions := record.total_deductions,
          net_pay := record.net_pay }
      let cloned := (itemsOf db record_id).map
        (fun i => { i with record_id := new_id })
      Except.ok
        ({ groups := db.groups.map (fun g =>
             if g.id == record.group_id then
               { g with current_payroll_record_id := some new_id }
             else g),
           records := db.records.map (fun r =>
             if r.id == record_id then
               { r with
                 status := "cancelled"
                 cancellation_reason := some reason
                 cancelled_by := some actor }
             else r) ++ [new_record],
           items := db.items ++ cloned,
           history := db.history ++
             [{ record_id := record_id, action := "cancelled",
                changed_by := actor, reason := some reason },
              { record_id := new_id, action := "created_from_cancellation",
                changed_by := actor, source_record_id := some record_id,
                reason := some reason }],
           next_id := new_id + 1 }, new_id)

/-! ## Year-end adjustment confirmation (`api/v1/year_end.py`) -/

/-- `year_end_adjustments` columns read by `confirm_adjustment`. -/
structure YearEndAdjustment where
  id : ℤ
  status : String
  annual_calculated_tax : Option ℤ := none
  annual_withheld_tax : Option ℤ := none
  adjustment_amount : Option ℤ := none
  confirmed_by : Option ℤ := none
deriving Repr, DecidableEq

/-- The errors `confirm_adjustment` raises. -/
inductive YearEndError where
  | notFound : YearEndError
  | invalidState : String → YearEndError
  | missingTax : YearEndError
deriving Repr, DecidableEq

/-- `confirm_adjustment` (`year_end.py` lines 563-619): only from
status = approved with both annual taxes set; sets
`adjustment_amount = annual_calculated_tax − annual_withheld_tax`, moves
the status to confirmed and stamps the actor.  Returns the updated row. -/
def confirmAdjustment (adjustments : List YearEndAdjustment)
    (adjustment_id actor : ℤ) : Except YearEndError YearEndAdjustment :=
  match adjustments.find? (fun a => a.id == adjustment_id) with
  | none => Except.error YearEndError.notFound
  | some adj =>
    if adj.status ≠ "approved" then
      Except.error (YearEndError.invalidState adj.status)
    else
      match adj.annual_calculated_tax, adj.annual_withheld_tax with
      | some c, some w =>
        Except.ok
          { adj with
            adjustment_amount := some (c - w), status := "confirmed",
            confirmed_by := some actor }
      | _, _ => Except.error YearEndError.missingTax

/-! ## Sums over item lists -/

/-- Sum of the amounts of the calculation-result items of one
`item_type`. -/
def sumOfType (t : String) (items : List Item) : ℤ :=
  ((items.filter (fun i => i.item_type == t)).map (fun i => i.amount)).sum

/-- Sum of the amounts of the persisted items of one `item_type`. -/
def rowSumOfType (t : String) (items : List ItemRow) : ℤ :=
  ((items.filter (fun i => i.item_type == t)).map (fun i => i.amount)).sum

/-! ## Concrete fixtures used by witnesses and counterexamples -/

/-- A `monthly_kou` bracket row: window `[0, 1000]`, income
`[200000, 280000)`, one dependent, tax 5740 (scenario 1 of the spec). -/
def taxRowA : IncomeTaxRow :=
  { table_type := "monthly_kou", valid_from := 0, valid_to := some 1000,
    income_from := 200000, income_to := some 280000, dependents_count := 1,
    tax_amount := 5740 }

/-- A global pension rate row at 9%. -/
def pensionRateA : InsuranceRate :=
  { insurance_type := "pension", valid_from := 0, valid_to := none,
    prefecture := none, employee_rate := 9/100, care_insurance_rate := none,
    company_id := none }

/-- A second global pension rate row tied with `pensionRateA` on
`valid_from` but with a different rate. -/
def pensionRateB : InsuranceRate :=
  { insurance_type := "pension", valid_from := 0, valid_to := none,
    prefecture := none, employee_rate := 8/100, care_insurance_rate := none,
    company_id := none }

/-- Environment with the pension rate and the bracket row. -/
def envA : CalcEnv :=
  { company := { health_insurance_prefecture := none,
                 care_insurance_applicable := false },
    company_id := 1, insurance_rates := [pensionRateA], tax_rows := [taxRowA] }

/-- Environment with empty rate and tax tables. -/
def envEmpty : CalcEnv :=
  { company := { health_insurance_prefecture := none,
                 care_insurance_applicable := false },
    company_id := 1, insurance_rates := [], tax_rows := [] }

/-- Monthly employee at 300000 yen with one dependent, enrolled in the
pension only. -/
def empA : Employee :=
  { salary_type := "monthly",
    salary_settings := { monthly_salary := some 300000 },
    dependents_count := 1, pension_insurance_enrolled := true }

/-- Hourly employee at 6000 yen/hour, no enrollments. -/
def empHourly : Employee :=
  { salary_type := "hourly", salary_settings := { hourly_rate := some 6000 } }

/-- Attendance with 60 minutes of night-overtime-holiday work only. -/
def attNOH : AttendanceRecord :=
  { minutes := { night_overtime_holiday_minutes := 60 } }

/-- Monthly employee at 100000 yen. -/
def empLowMonthly : Employee :=
  { salary_type := "monthly",
    salary_settings := { monthly_salary := some 100000 } }

/-- Attendance with 30 absence days against 20 statutory work days. -/
def attAbsent : AttendanceRecord :=
  { absence_days := 30, statutory_work_days := some 20 }

/-- A confirmed record with one earning and one deduction item. -/
def recB : RecordRow :=
  { id := 10, group_id := 1, employee_id := 2, period_id := 3, version := 1,
    status := "confirmed", payment_date := 0, total_earnings := 1000,
    total_deductions := 200, net_pay := 800 }

/-- Earning item of `recB`. -/
def itemB1 : ItemRow :=
  { record_id := 10, item_type := "earning", item_code := "base_salary",
    item_name := "基本給", amount := 1000, is_taxable := true,
    is_social_insurance_target := true, is_employment_insurance_target := true,
    display_order := 1 }

/-- Deduction item of `recB`. -/
def itemB2 : ItemRow :=
  { record_id := 10, item_type := "deduction", item_code := "income_tax",
    item_name := "所得税", amount := 200, is_taxable := false,
    is_social_insurance_target := false,
    is_employment_insurance_target := false, display_order := 2 }

/-- Group of `recB`, currently pointing at it. -/
def groupB : GroupRow :=
  { id := 1, employee_id := 2, period_id := 3,
    current_payroll_record_id := some 10 }

/-- Database holding `recB` confirmed with its two items. -/
def dbB : Db :=
  { groups := [groupB], records := [recB], items := [itemB1, itemB2],
    history := [], next_id := 11 }

/-- A draft record in `groupB`. -/
def recDraft : RecordRow :=
  { id := 10, group_id := 1, employee_id := 2, period_id := 3, version := 1,
    status := "draft", payment_date := 0, total_earnings := 1000,
    total_deductions := 200, net_pay := 800 }

/-- Database where `groupB` already holds the draft `recDraft`. -/
def dbDraft : Db :=
  { groups := [groupB], records := [recDraft], items := [itemB1, itemB2],
    history := [], next_id := 11 }

/-- `recDraft` as confirmed by actor 7. -/
def recDraftConfirmed : RecordRow :=
  { recDraft with status := "confirmed", confirmed_by := some 7 }

/-- `dbDraft` after confirming record 10 by actor 7. -/
def dbDraftConfirmed : Db :=
  { groups := [groupB], records := [recDraftConfirmed],
    items := [itemB1, itemB2],
    history := [{ record_id := 10, action := "confirmed", changed_by := 7 }],
    next_id := 11 }

/-- An arbitrary calculation result handed to the endpoint model. -/
def calcResZero : CalcResult :=
  { total_earnings := 0, total_deductions := 0, net_pay := 0, items := [],
    base_salary := 0, base_hourly := 0, gross_salary := 0,
    social_insurance_total := 0, taxable_earnings := 0, income_tax := 0 }

/-- Monthly employee with no salary payload and a 3000-yen resident tax. -/
def empRes : Employee :=
  { salary_type := "monthly", resident_tax_monthly_amount := some 3000 }

/-- A year-end adjustment at status approved with both annual taxes set
(scenario 4 of the spec). -/
def yeaA : YearEndAdjustment :=
  { id := 5, status := "approved", annual_calculated_tax := some 420000,
    annual_withheld_tax := some 450000 }

/-! ## Helper lemmas -/

theorem foldl_pickStep_mem {α : Type} (f : α → ℤ) (l : List α) :
    ∀ (acc : Option α) (r : α),
      l.foldl (pickStep f) acc = some r → acc = some r ∨ r ∈ l := by
  induction l with
  | nil => intro acc r h; exact Or.inl h
  | cons a t ih =>
    intro acc r h
    rw [List.foldl_cons] at h
    rcases ih (pickStep f acc a) r h with h2 | h2
    · cases acc with
      | none =>
        simp only [pickStep] at h2
        exact Or.inr (by simp [← Option.some.inj h2])
      | some b =>
        simp only [pickStep] at h2
        by_cases hb : f b < f a
        · rw [if_pos hb] at h2
          exact Or.inr (by simp [← Option.some.inj h2])
        · rw [if_neg hb] at h2
          exact Or.inl h2
    · exact Or.inr (List.mem_cons_of_mem a h2)

theorem foldl_pickStep_le {α : Type} (f : α → ℤ) (l : List α) :
    ∀ (acc : Option α) (r : α),
      l.foldl (pickStep f) acc = some r →
      (∀ x ∈ l, f x ≤ f r) ∧ (∀ b, acc = some b → f b ≤ f r) := by
  induction l with
  | nil =>
    intro acc r h
    refine ⟨?_, ?_⟩
    · intro x hx; cases hx
    intro b hb
    rw [hb] at h
    rw [Option.some.inj h]
  | cons a t ih =>
    intro acc r h
    rw [List.foldl_cons] at h
    obtain ⟨ht, hacc2⟩ := ih (pickStep f acc a) r h
    have ha : f a ≤ f r := by
      cases acc with
      | none => exact hacc2 a (by simp [pickStep])
      | some b =>
        by_cases hb : f b < f a
        · exact hacc2 a (by simp [pickStep, if_pos hb])
        · exact (le_of_not_lt hb).trans
            (hacc2 b (by simp [pickStep, if_neg hb]))
    refine ⟨?_, ?_⟩
    · intro x hx
      rcases List.mem_cons.1 hx with rfl | hx
      · exact ha
      · exact ht x hx
    · intro b hb
      subst hb
      by_cases hba : f b < f a
      · exact (le_of_lt hba).trans ha
      · exact hacc2 b (by simp [pickStep, if_neg hba])

theorem foldl_pickStep_isSome {α : Type} (f : α → ℤ) (l : List α) :
    ∀ (b : α), ∃ r, l.foldl (pickStep f) (some b) = some r := by
  induction l with
  | nil => intro b; exact ⟨b, rfl⟩
  | cons a t ih =>
    intro b
    rw [List.foldl_cons]
    by_cases hb : f b < f a
    · simpa [pickStep, if_pos hb] using ih a
    · simpa [pickStep, if_neg hb] using ih b

theorem pickLatestBy_mem {α : Type} {f : α → ℤ} {l : List α} {r : α}
    (h : pickLatestBy f l = some r) : r ∈ l := by
  rcases foldl_pickStep_mem f l none r h with h2 | h2
  · cases h2
  · exact h2

theorem pickLatestBy_le {α : Type} {f : α → ℤ} {l : List α} {r : α}
    (h : pickLatestBy f l = some r) : ∀ x ∈ l, f x ≤ f r :=
  (foldl_pickStep_le f l none r h).1

theorem pickLatestBy_ne_nil {α : Type} (f : α → ℤ) (l : List α)
    (h : l ≠ []) : ∃ r, pickLatestBy f l = some r := by
  cases l with
  | nil => exact absurd rfl h
  | cons a t =>
    unfold pickLatestBy
    rw [List.foldl_cons]
    simpa [pickStep] using foldl_pickStep_isSome f t a

theorem mem_deductionItems {c n : String} {a : ℤ} {i : Item}
    (h : i ∈ PayrollCalculator.deductionItems c n a) :
    0 < a ∧ i.item_type = "deduction" ∧ i.amount = a := by
  unfold PayrollCalculator.deductionItems at h
  by_cases ha : 0 < a
  · rw [if_pos ha] at h
    rcases List.mem_singleton.1 h with rfl
    exact ⟨ha, rfl, rfl⟩
  · rw [if_neg ha] at h
    cases h

theorem sumOfType_append (t : String) (l1 l2 : List Item) :
    sumOfType t (l1 ++ l2) = sumOfType t l1 + sumOfType t l2 := by
  simp [sumOfType, List.filter_append]

theorem sumOfType_earning_deductionItems (c n : String) (a : ℤ) :
    sumOfType "earning" (PayrollCalculator.deductionItems c n a) = 0 := by
  unfold PayrollCalculator.deductionItems
  by_cases ha : 0 < a
  · rw [if_pos ha]; simp [sumOfType]
  · rw [if_neg ha]; simp [sumOfType]

theorem sumOfType_deduction_deductionItems (c n : String) (a : ℤ) :
    sumOfType "deduction" (PayrollCalculator.deductionItems c n a) =
      if 0 < a then a else 0 := by
  unfold PayrollCalculator.deductionItems
  by_cases ha : 0 < a
  · rw [if_pos ha, if_pos ha]; simp [sumOfType]
  · rw [if_neg ha, if_neg ha]; simp [sumOfType]

theorem foldl_add_eq_sum {α : Type} (g : α → ℤ) (l : List α) :
    ∀ init : ℤ, l.foldl (fun s x => s + g x) init = init + (l.map g).sum := by
  induction l with
  | nil => intro init; simp
  | cons a t ih =>
    intro init
    rw [List.foldl_cons, ih (init + g a)]
    simp [add_assoc]

/-! ## C2 — 60-hour overtime split -/

/-- **C2.** For every non-negative base hourly rate and every attendance
record, the overtime computation splits statutory overtime minutes at 3600:
the minutes above 3600 are paid at multiplier 1.50 of the per-minute rate,
the remaining statutory overtime minutes at 1.25, each component is floored
to integer yen independently, and `total_overtime_pay` is the sum of all
components; for `base_hourly = 2400` and 4200 statutory overtime minutes
the two components are 180000 and 36000. -/
theorem overtime_60h_split (base_hourly_rate : ℤ)
    (hpos : 0 ≤ base_hourly_rate) (att : AttendanceMinutes) :
    (OvertimeCalculator.calculate base_hourly_rate att).over60h_premium_pay =
      Int.floor ((base_hourly_rate : ℚ) / 60 *
        ((max 0 (att.overtime_statutory_minutes - 3600) : ℤ) : ℚ) * (3/2)) ∧
    (OvertimeCalculator.calculate base_hourly_rate att).overtime_statutory_pay =
      Int.floor ((base_hourly_rate : ℚ) / 60 *
        ((att.overtime_statutory_minutes -
          max 0 (att.overtime_statutory_minutes - 3600) : ℤ) : ℚ) * (5/4)) ∧
    (OvertimeCalculator.calculate base_hourly_rate att).total_overtime_pay =
      (OvertimeCalculator.calculate base_hourly_rate att).overtime_within_statutory_pay +
      (OvertimeCalculator.calculate base_hourly_rate att).overtime_statutory_pay +
      (OvertimeCalculator.calculate base_hourly_rate att).over60h_premium_pay +
      (OvertimeCalculator.calculate base_hourly_rate att).night_pay +
      (OvertimeCalculator.calculate base_hourly_rate att).statutory_holiday_pay +
      (OvertimeCalculator.calculate base_hourly_rate att).non_statutory_holiday_pay +
      (OvertimeCalculator.calculate base_hourly_rate att).night_overtime_pay +
      (OvertimeCalculator.calculate base_hourly_rate att).night_holiday_pay +
      (OvertimeCalculator.calculate base_hourly_rate att).night_overtime_holiday_pay ∧
    (OvertimeCalculator.calculate 2400
      { overtime_statutory_minutes := 4200 }).overtime_statutory_pay = 180000 ∧
    (OvertimeCalculator.calculate 2400
      { overtime_statutory_minutes := 4200 }).over60h_premium_pay = 36000 := by
  refine ⟨?_, ?_, rfl, ?_, ?_⟩
  · show Int.floor ((base_hourly_rate : ℚ) / 60 *
        ((max 0 (att.overtime_statutory_minutes -
          OvertimeCalculator.MONTHLY_OVERTIME_THRESHOLD) : ℤ) : ℚ) * (1 + 1/2)) = _
    norm_num [OvertimeCalculator.MONTHLY_OVERTIME_THRESHOLD]
  · show Int.floor ((base_hourly_rate : ℚ) / 60 *
        ((att.overtime_statutory_minutes -
          max 0 (att.overtime_statutory_minutes -
            OvertimeCalculator.MONTHLY_OVERTIME_THRESHOLD) : ℤ) : ℚ) * (1 + 1/4)) = _
    norm_num [OvertimeCalculator.MONTHLY_OVERTIME_THRESHOLD]
  · norm_num [OvertimeCalculator.calculate,
      OvertimeCalculator.MONTHLY_OVERTIME_THRESHOLD]
  · norm_num [OvertimeCalculator.calculate,
      OvertimeCalculator.MONTHLY_OVERTIME_THRESHOLD]

/-- Witness for C2 at `base_hourly = 2400`, statutory overtime 4200
minutes. -/
theorem overtime_60h_split_witness :
    (0 : ℤ) ≤ 2400 ∧
    (OvertimeCalculator.calculate 2400
      { overtime_statutory_minutes := 4200 }).overtime_statutory_pay = 180000 ∧
    (OvertimeCalculator.calculate 2400
      { overtime_statutory_minutes := 4200 }).over60h_premium_pay = 36000 :=
  ⟨by norm_num,
   (overtime_60h_split 2400 (by norm_num)
     { overtime_statutory_minutes := 4200 }).2.2.2.1,
   (overtime_60h_split 2400 (by norm_num)
     { overtime_statutory_minutes := 4200 }).2.2.2.2⟩

/-! ## C9 — year-end confirmation -/

/-- **C9.** `confirm_adjustment` succeeds only from status `approved` with
both `annual_calculated_tax` and `annual_withheld_tax` set; on success the
row moves to `confirmed` with
`adjustment_amount = annual_calculated_tax − annual_withheld_tax`. -/
theorem yearEnd_confirm_adjustment :
    (∀ (adjustments : List YearEndAdjustment) (aid actor : ℤ)
       (adj2 : YearEndAdjustment),
      confirmAdjustment adjustments aid actor = Except.ok adj2 →
      ∃ adj, adjustments.find? (fun a => a.id == aid) = some adj ∧
        adj.status = "approved" ∧
        ∃ c w, adj.annual_calculated_tax = some c ∧
          adj.annual_withheld_tax = some w ∧
          adj2.status = "confirmed" ∧ adj2.adjustment_amount = some (c - w)) ∧
    (∀ (adjustments : List YearEndAdjustment) (aid actor : ℤ)
       (adj : YearEndAdjustment),
      adjustments.find? (fun a => a.id == aid) = some adj →
      (adj.status ≠ "approved" ∨ adj.annual_calculated_tax = none ∨
        adj.annual_withheld_tax = none) →
      ∃ e, confirmAdjustment adjustments aid actor = Except.error e) := by
  constructor
  · intro adjustments aid actor adj2 h
    unfold confirmAdjustment at h
    split at h
    · cases h
    · rename_i adj hf
      split at h
      · cases h
      · rename_i hs
        split at h
        · rename_i c w hct hwt
          cases h
          exact ⟨adj, hf, not_not.mp hs, c, w, hct, hwt, rfl, rfl⟩
        · cases h
  · intro adjustments aid actor adj hf hbad
    by_cases hs : adj.status = "approved"
    · rcases hbad with hbad | hbad | hbad
      · exact absurd hs hbad
      · refine ⟨YearEndError.missingTax, ?_⟩
        cases hwt : adj.annual_withheld_tax <;>
          simp [confirmAdjustment, hf, hs, hbad, hwt]
      · refine ⟨YearEndError.missingTax, ?_⟩
        cases hct : adj.annual_calculated_tax <;>
          simp [confirmAdjustment, hf, hs, hbad, hct]
    · exact ⟨YearEndError.invalidState adj.status,
        by simp [confirmAdjustment, hf, hs]⟩

/-- Witness for C9: confirming `yeaA` (calculated 420000, withheld 450000)
yields adjustment −30000 at status confirmed. -/
theorem yearEnd_confirm_adjustment_witness :
    ∃ adj, ([yeaA].find? (fun a => a.id == (5 : ℤ))) = some adj ∧
      adj.status = "approved" ∧
      ∃ c w, adj.annual_calculated_tax = some c ∧
        adj.annual_withheld_tax = some w ∧
        ({ yeaA with
           adjustment_amount := some (-30000), status := "confirmed",
           confirmed_by := some 9 } : YearEndAdjustment).status = "confirmed" ∧
        ({ yeaA with
           adjustment_amount := some (-30000), status := "confirmed",
           confirmed_by := some 9 } : YearEndAdjustment).adjustment_amount =
          some (c - w) :=
  yearEnd_confirm_adjustment.1 [yeaA] 5 9
    { yeaA with
      adjustment_amount := some (-30000), status := "confirmed",
      confirmed_by := some 9 }
    (by rfl)

/-! ## C7 — tied insurance-rate rows -/

/-- **C7 counterexample.** `pensionRateA` and `pensionRateB` are two
distinct global rows that tie on the selection criteria (same greatest
`valid_from ≤ target_date`, validity window covering the date), yet
`_get_rate` returns the first of them: the lookup never fails with an
AmbiguousRate error (no such error exists in the source). -/
theorem insurance_rate_tie_returns_row :
    pensionRateA ≠ pensionRateB ∧
    rateMatches "pension" 100 none pensionRateA = true ∧
    rateMatches "pension" 100 none pensionRateB = true ∧
    pensionRateA.company_id = none ∧ pensionRateB.company_id = none ∧
    pensionRateA.valid_from = pensionRateB.valid_from ∧
    InsuranceCalculator.getRate [pensionRateA, pensionRateB] 1 "pension"
      100 none = some pensionRateA := by
  refine ⟨?_, rfl, rfl, rfl, rfl, rfl, rfl⟩
  intro h
  have h9 := congrArg InsuranceRate.employee_rate h
  simp only [pensionRateA, pensionRateB] at h9
  norm_num at h9

/-- **C7 amended.** When two distinct global rows tie on the greatest
`valid_from ≤ target_date` within the global scope (and no tenant-scoped
candidate exists), the lookup does not fail: it returns some matching
global row carrying that maximal `valid_from` (the first in query order). -/
theorem insurance_rate_tie_amended
    (rows : List InsuranceRate) (company_id : ℤ) (t : String) (d : ℤ)
    (pref : Option String) (r1 r2 : InsuranceRate)
    (h1 : r1 ∈ rows) (h2 : r2 ∈ rows) (hne : r1 ≠ r2)
    (hm1 : rateMatches t d pref r1 = true)
    (hm2 : rateMatches t d pref r2 = true)
    (hg1 : r1.company_id = none) (hg2 : r2.company_id = none)
    (htie : r1.valid_from = r2.valid_from)
    (hnoc : ∀ r ∈ rows, rateMatches t d pref r = true →
      r.company_id ≠ some company_id)
    (hmax : ∀ r ∈ rows, rateMatches t d pref r = true →
      r.company_id = none → r.valid_from ≤ r1.valid_from) :
    ∃ r, InsuranceCalculator.getRate rows company_id t d pref = some r ∧
      rateMatches t d pref r = true ∧ r.company_id = none ∧
      r.valid_from = r1.valid_from := by
  have hc : (rows.filter (rateMatches t d pref)).filter
      (fun r => r.company_id == some company_id) = [] := by
    rw [List.filter_eq_nil_iff]
    intro a ha
    obtain ⟨hamem, ham⟩ := List.mem_filter.1 ha
    simp only [beq_iff_eq]
    exact hnoc a hamem ham
  have hr1g : r1 ∈ (rows.filter (rateMatches t d pref)).filter
      (fun r => r.company_id == none) :=
    List.mem_filter.2 ⟨List.mem_filter.2 ⟨h1, hm1⟩, by simp [hg1]⟩
  obtain ⟨r, hr⟩ := pickLatestBy_ne_nil (fun r => r.valid_from) _
    (List.ne_nil_of_mem hr1g)
  have hrmem := pickLatestBy_mem hr
  obtain ⟨hrmem2, hrglob⟩ := List.mem_filter.1 hrmem
  obtain ⟨hrrows, hrmatch⟩ := List.mem_filter.1 hrmem2
  refine ⟨r, ?_, hrmatch, by simpa using hrglob, ?_⟩
  · simp only [InsuranceCalculator.getRate]
    rw [hc]
    simpa [pickLatestBy] using hr
  · exact le_antisymm
      (hmax r hrrows hrmatch (by simpa using hrglob))
      (pickLatestBy_le hr r1 hr1g)

/-- Witness for the amended C7 at the concrete tied pair. -/
theorem insurance_rate_tie_amended_witness :
    ∃ r, InsuranceCalculator.getRate [pensionRateA, pensionRateB] 1
      "pension" 100 none = some r ∧
      rateMatches "pension" 100 none r = true ∧ r.company_id = none ∧
      r.valid_from = pensionRateA.valid_from :=
  insurance_rate_tie_amended [pensionRateA, pensionRateB] 1 "pension" 100
    none pensionRateA pensionRateB
    (by simp) (by simp)
    (by
      intro h
      have h9 := congrArg InsuranceRate.employee_rate h
      simp only [pensionRateA, pensionRateB] at h9
      norm_num at h9)
    rfl rfl rfl rfl rfl
    (by
      intro r hr hm
      rcases List.mem_cons.1 hr with rfl | hr
      · simp [pensionRateA]
      · rcases List.mem_cons.1 hr with rfl | hr
        · simp [pensionRateB]
        · cases hr)
    (by
      intro r hr hm hg
      rcases List.mem_cons.1 hr with rfl | hr
      · exact le_refl _
      · rcases List.mem_cons.1 hr with rfl | hr
        · exact le_refl _
        · cases hr)

/-! ## C1 — taxable base and bracket selection -/

/-- **C1.** The taxable base handed to the income-tax computation equals
`max 0 (gross − non-taxable commute − social insurance total)`, the income
tax of the result is the table computation applied to exactly that base,
the employee's tax category and dependents count and the target date; and
any row the bracket lookup selects has a validity window covering the
target date, contains the taxable income with inclusive lower and exclusive
upper bound (null upper bound open-ended), and matches the dependents count
exactly. -/
theorem taxable_base_and_bracket (env : CalcEnv) (emp : Employee)
    (att : Option AttendanceRecord) (allw : List AllowanceRow)
    (comm : Option CommuteDetail) (d : ℤ) :
    (PayrollCalculator.calculate env emp att allw comm d).taxable_earnings =
      max 0 ((PayrollCalculator.calculate env emp att allw comm d).gross_salary -
        PayrollCalculator.commuteNontaxable comm -
        (PayrollCalculator.calculate env emp att allw comm d).social_insurance_total) ∧
    (PayrollCalculator.calculate env emp att allw comm d).income_tax =
      TaxCalculator.calculate_income_tax env.tax_rows
        (PayrollCalculator.calculate env emp att allw comm d).taxable_earnings
        emp.tax_category emp.dependents_count d
        (emp.salary_type == "monthly") ∧
    (∀ (rows : List IncomeTaxRow) (tt : String) (ti dep dd : ℤ)
       (r : IncomeTaxRow),
      TaxCalculator.findTaxRow rows tt ti dep dd = some r →
      r.table_type = tt ∧ r.valid_from ≤ dd ∧
      (∀ v, r.valid_to = some v → dd ≤ v) ∧
      r.income_from ≤ ti ∧ (∀ v, r.income_to = some v → ti < v) ∧
      r.dependents_count = dep) := by
  refine ⟨rfl, rfl, ?_⟩
  intro rows tt ti dep dd r h
  have hmem : r ∈ rows.filter (taxRowMatches tt ti dep dd) :=
    pickLatestBy_mem h
  obtain ⟨hrows, hmatch⟩ := List.mem_filter.1 hmem
  unfold taxRowMatches at hmatch
  simp only [Bool.and_eq_true, beq_iff_eq, decide_eq_true_eq] at hmatch
  obtain ⟨⟨⟨⟨⟨htt, hvf⟩, hif⟩, hdep⟩, hvt⟩, hit⟩ := hmatch
  refine ⟨htt, hvf, ?_, hif, ?_, hdep⟩
  · intro v hv
    rw [hv] at hvt
    simpa using hvt
  · intro v hv
    rw [hv] at hit
    simpa using hit

/-- Witness for C1: the bracket lookup on `taxRowA` at taxable income
255795, one dependent, day 100 selects a row satisfying all selection
criteria. -/
theorem taxable_base_and_bracket_witness :
    taxRowA.table_type = "monthly_kou" ∧ taxRowA.valid_from ≤ 100 ∧
    (100 : ℤ) ≤ 1000 ∧ taxRowA.income_from ≤ 255795 ∧
    (255795 : ℤ) < 280000 ∧ taxRowA.dependents_count = 1 := by
  have h := (taxable_base_and_bracket envA empA none [] none 100).2.2
    [taxRowA] "monthly_kou" 255795 1 100 taxRowA (by rfl)
  exact ⟨h.1, h.2.1, h.2.2.1 1000 rfl, h.2.2.2.1, h.2.2.2.2.1 280000 rfl,
    h.2.2.2.2.2⟩

/-! ## C10 — deduction items are strictly positive -/

/-- **C10.** Every line item with `item_type = deduction` in a calculation
result has a strictly positive amount: deductions that compute to zero (or
to nothing at all) produce no line item. -/
theorem deduction_items_strictly_positive (env : CalcEnv) (emp : Employee)
    (att : Option AttendanceRecord) (allw : List AllowanceRow)
    (comm : Option CommuteDetail) (d : ℤ) :
    ∀ i ∈ (PayrollCalculator.calculate env emp att allw comm d).items,
      i.item_type = "deduction" → 0 < i.amount := by
  intro i hi htype
  simp only [PayrollCalculator.calculate, List.mem_append] at hi
  rcases hi with (((((((((h | h) | h) | h) | h) | h) | h) | h) | h) | h)
  · rcases List.mem_singleton.1 h with rfl
    simp at htype
  · obtain ⟨p, hp, rfl⟩ := List.mem_map.1 h
    simp at htype
  · obtain ⟨a, ha, rfl⟩ := List.mem_map.1 h
    simp at htype
  · by_cases hca : PayrollCalculator.commuteAmount comm = 0
    · rw [if_pos hca] at h
      cases h
    · rw [if_neg hca] at h
      rcases List.mem_singleton.1 h with rfl
      simp at htype
  · obtain ⟨hpos, -, hamt⟩ := mem_deductionItems h
    rw [hamt]; exact hpos
  · obtain ⟨hpos, -, hamt⟩ := mem_deductionItems h
    rw [hamt]; exact hpos
  · obtain ⟨hpos, -, hamt⟩ := mem_deductionItems h
    rw [hamt]; exact hpos
  · obtain ⟨hpos, -, hamt⟩ := mem_deductionItems h
    rw [hamt]; exact hpos
  · obtain ⟨hpos, -, hamt⟩ := mem_deductionItems h
    rw [hamt]; exact hpos
  · obtain ⟨hpos, -, hamt⟩ := mem_deductionItems h
    rw [hamt]; exact hpos

/-- Witness for C10: the 3000-yen resident-tax deduction of `empRes` is in
the result and is strictly positive. -/
theorem deduction_items_strictly_positive_witness :
    0 < ({ item_type := "deduction", item_code := "resident_tax",
           item_name := "住民税", amount := 3000, is_taxable := false,
           is_social_insurance_target := false,
           is_employment_insurance_target := false } : Item).amount :=
  deduction_items_strictly_positive envEmpty empRes none [] none 100 _
    (by decide) rfl

/-! ## C3 — the night-overtime-holiday component is dropped -/

/-- **C3 (code bug).** At base hourly 6000 with 60 minutes of
night-overtime-holiday work, the overtime engine computes a 5100-yen
`night_overtime_holiday_pay` component and includes it in its own
`total_overtime_pay`, yet the payroll calculation creates no earning item
for it (it is absent from the `overtime_items` list of
`payroll_calculator.py` lines 108-117): every item of the result has
amount 0 and `total_earnings` stays 0. -/
theorem night_overtime_holiday_component_dropped :
    (OvertimeCalculator.calculate 6000 attNOH.minutes).night_overtime_holiday_pay
      = 5100 ∧
    (OvertimeCalculator.calculate 6000 attNOH.minutes).total_overtime_pay
      = 5100 ∧
    (PayrollCalculator.calculate envEmpty empHourly (some attNOH) []
      none 0).total_earnings = 0 ∧
    ∀ i ∈ (PayrollCalculator.calculate envEmpty empHourly (some attNOH) []
      none 0).items, i.amount = 0 := by
  have hot : OvertimeCalculator.calculate 6000
      ({ night_overtime_holiday_minutes := 60 } : AttendanceMinutes) =
      { overtime_statutory_pay := 0, overtime_within_statutory_pay := 0,
        night_pay := 0, statutory_holiday_pay := 0,
        non_statutory_holiday_pay := 0, over60h_premium_pay := 0,
        night_overtime_pay := 0, night_holiday_pay := 0,
        night_overtime_holiday_pay := 5100, total_overtime_pay := 5100 } := by
    simp only [OvertimeCalculator.calculate,
      OvertimeCalculator.MONTHLY_OVERTIME_THRESHOLD,
      OvertimeResult.mk.injEq]
    norm_num
  refine ⟨by simp [attNOH, hot], by simp [attNOH, hot], ?_, ?_⟩
  · simp only [PayrollCalculator.calculate, PayrollCalculator.baseSalary,
      PayrollCalculator.baseHourly, PayrollCalculator.overtimePairs,
      PayrollCalculator.commuteAmount, envEmpty, empHourly, attNOH]
    simp [hot]
  · intro i hi
    simp only [PayrollCalculator.calculate, PayrollCalculator.baseSalary,
      PayrollCalculator.baseHourly, PayrollCalculator.overtimePairs,
      PayrollCalculator.commuteAmount, PayrollCalculator.commuteNontaxable,
      PayrollCalculator.deductionItems, TaxCalculator.calculate_income_tax,
      TaxCalculator.findTaxRow, TaxCalculator.tableTypeFor, pickLatestBy,
      envEmpty, empHourly, attNOH] at hi
    simp [hot] at hi
    simp [hi]

/-! ## C8 — absence deduction is not clamped -/

/-- **C8 counterexample.** A monthly employee at 100000 yen with 30 absence
days against 20 statutory work days: the base salary of the result is
−50000 — negative, not clamped to 0 — and it flows into
`total_earnings`. -/
theorem absence_deduction_goes_negative :
    (PayrollCalculator.calculate envEmpty empLowMonthly (some attAbsent) []
      none 0).base_salary = -50000 ∧
    (PayrollCalculator.calculate envEmpty empLowMonthly (some attAbsent) []
      none 0).total_earnings = -50000 := by
  have hb : PayrollCalculator.baseSalary empLowMonthly (some attAbsent) 0 0 =
      -50000 := by
    simp only [PayrollCalculator.baseSalary, empLowMonthly, attAbsent]
    norm_num
  constructor
  · simpa only [PayrollCalculator.calculate, empLowMonthly, attAbsent,
      Option.getD] using hb
  · simp only [PayrollCalculator.calculate, PayrollCalculator.baseSalary,
      PayrollCalculator.baseHourly, PayrollCalculator.overtimePairs,
      PayrollCalculator.commuteAmount, OvertimeCalculator.calculate,
      OvertimeCalculator.MONTHLY_OVERTIME_THRESHOLD,
      envEmpty, empLowMonthly, attAbsent]
    norm_num

/-- **C8 amended.** For a monthly employee with positive absence days the
base salary equals
`monthly_salary − floor(monthly_salary / (statutory_work_days or 20)) ×
absence_days`, with no clamping (the value may be negative), and the base
salary earning line carries that amount with no note attached. -/
theorem absence_deduction_formula (env : CalcEnv) (emp : Employee)
    (att : AttendanceRecord) (allw : List AllowanceRow)
    (comm : Option CommuteDetail) (d ms : ℤ)
    (hmt : emp.salary_type = "monthly")
    (hms : emp.salary_settings.monthly_salary = some ms)
    (had : 0 < att.absence_days) :
    (PayrollCalculator.calculate env emp (some att) allw comm d).base_salary =
      ms - Int.floor ((ms : ℚ) /
        ((match att.statutory_work_days with
          | none => 20
          | some v => if v = 0 then 20 else v) : ℤ)) * att.absence_days ∧
    (PayrollCalculator.calculate env emp (some att) allw comm d).items.head? =
      some { item_type := "earning", item_code := "base_salary",
             item_name := "基本給",
             amount := ms - Int.floor ((ms : ℚ) /
               ((match att.statutory_work_days with
                 | none => 20
                 | some v => if v = 0 then 20 else v) : ℤ)) * att.absence_days,
             is_taxable := true, is_social_insurance_target := true,
             is_employment_insurance_target := true, notes := none } := by
  have hb : ∀ w t : ℤ, PayrollCalculator.baseSalary emp (some att) w t =
      ms - Int.floor ((ms : ℚ) /
        ((match att.statutory_work_days with
          | none => 20
          | some v => if v = 0 then 20 else v) : ℤ)) * att.absence_days := by
    intro w t
    simp only [PayrollCalculator.baseSalary, hmt, hms, Option.getD_some]
    rw [if_pos had]
    simp
  constructor
  · exact hb _ _
  · show some _ = some _
    rw [hb]

/-- Witness for the amended C8 at the concrete counterexample input. -/
theorem absence_deduction_formula_witness :
    (PayrollCalculator.calculate envEmpty empLowMonthly (some attAbsent) []
      none 0).base_salary =
      100000 - Int.floor ((100000 : ℚ) /
        ((match attAbsent.statutory_work_days with
          | none => 20
          | some v => if v = 0 then 20 else v) : ℤ)) *
        attAbsent.absence_days :=
  (absence_deduction_formula envEmpty empLowMonthly attAbsent [] none 0
    100000 rfl rfl (by norm_num [attAbsent])).1

/-! ## C6 — Calculate with an existing draft -/

/-- **C6 counterexample.** `dbDraft` already holds the draft `recDraft` in
the group of employee 2: re-running Calculate leaves the database unchanged
but returns an empty created-records list — it does not return the
existing draft. -/
theorem calculate_existing_draft_not_returned :
    calculatePayroll dbDraft [2] 3 0 (fun _ => calcResZero) 9 =
      (dbDraft, []) ∧
    findRecord dbDraft 10 = some recDraft ∧
    recDraft.status = "draft" := by decide

/-- **C6 amended.** When the group already contains a draft record,
re-running the per-employee calculation creates no new record, leaves the
database (hence the draft and the group) unchanged, and returns nothing
for that employee — the existing draft is skipped, not returned. -/
theorem calculate_idempotent_skip (db : Db)
    (emp_id period_id payment_date : ℤ) (calcResult : CalcResult)
    (actor : ℤ) (g : GroupRow)
    (hg : db.groups.find?
      (fun x => x.employee_id == emp_id && x.period_id == period_id) = some g)
    (hd : ∃ r ∈ db.records, (r.group_id == g.id && r.status == "draft") = true) :
    calculateForEmployee db emp_id period_id payment_date calcResult actor =
      (db, none) := by
  have hs : (db.records.find?
      (fun r => r.group_id == g.id && r.status == "draft")).isSome := by
    rcases hd with ⟨r, hr, hpred⟩
    exact List.find?_isSome.2 ⟨r, hr, hpred⟩
  simp only [calculateForEmployee, hg, hs, if_pos]

/-- Witness for the amended C6 on `dbDraft`. -/
theorem calculate_idempotent_skip_witness :
    calculateForEmployee dbDraft 2 3 0 calcResZero 9 = (dbDraft, none) :=
  calculate_idempotent_skip dbDraft 2 3 0 calcResZero 9 groupB (by decide)
    ⟨recDraft, by decide, by decide⟩

/-! ## Helper lemmas for the record state machine -/

theorem find?_map_comm {α : Type} (l : List α) (f : α → α) (p : α → Bool)
    (hp : ∀ x, p (f x) = p x) :
    (l.map f).find? p = (l.find? p).map f := by
  induction l with
  | nil => rfl
  | cons a t ih =>
    by_cases hpa : p a = true
    · rw [List.map_cons, List.find?_cons_of_pos _ (by rw [hp a]; exact hpa),
        List.find?_cons_of_pos _ hpa]
      rfl
    · rw [List.map_cons,
        List.find?_cons_of_neg _ (by rw [hp a]; exact hpa),
        List.find?_cons_of_neg _ hpa, ih]

theorem rowSumOfType_append (t : String) (l1 l2 : List ItemRow) :
    rowSumOfType t (l1 ++ l2) = rowSumOfType t l1 + rowSumOfType t l2 := by
  simp [rowSumOfType, List.filter_append]

theorem rowSumOfType_retarget (t : String) (nid : ℤ) (l : List ItemRow) :
    rowSumOfType t (l.map (fun i => { i with record_id := nid })) =
      rowSumOfType t l := by
  induction l with
  | nil => rfl
  | cons a tl ih =>
    by_cases ha : (a.item_type == t) = true
    · simp only [rowSumOfType, List.map_cons, List.filter_cons] at *
      rw [show ({ a with record_id := nid } : ItemRow).item_type =
        a.item_type from rfl, ha] at *
      simpa using ih
    · simp only [rowSumOfType, List.map_cons, List.filter_cons] at *
      rw [show ({ a with record_id := nid } : ItemRow).item_type =
        a.item_type from rfl] at *
      rw [Bool.not_eq_true] at ha
      rw [ha] at *
      simpa using ih

/-- Full characterization of a successful `cancelPayrollRecord` run:
given the record is found and confirmed, and primary keys are below the
autoincrement counter, the operation returns the explicitly described
state. -/
theorem cancelPayrollRecord_ok (db : Db) (record_id : ℤ) (reason : String)
    (actor : ℤ) (r : RecordRow)
    (hfind : findRecord db record_id = some r)
    (hstatus : r.status = "confirmed") :
    cancelPayrollRecord db record_id reason actor =
      Except.ok
        ({ groups := db.groups.map (fun g =>
             if g.id == r.group_id then
               { g with current_payroll_record_id := some db.next_id }
             else g),
           records := db.records.map (fun x =>
             if x.id == record_id then
               { x with
                 status := "cancelled"
                 cancellation_reason := some reason
                 cancelled_by := some actor }
             else x) ++
             [{ id := db.next_id, group_id := r.group_id,
                employee_id := r.employee_id, period_id := r.period_id,
                version := r.version + 1, status := "draft",
                payment_date := r.payment_date,
                total_earnings := r.total_earnings,
                total_deductions := r.total_deductions,
                net_pay := r.net_pay }],
           items := db.items ++ (itemsOf db record_id).map
             (fun i => { i with record_id := db.next_id }),
           history := db.history ++
             [{ record_id := record_id, action := "cancelled",
                changed_by := actor, reason := some reason },
              { record_id := db.next_id,
                action := "created_from_cancellation", changed_by := actor,
                source_record_id := some record_id,
                reason := some reason }],
           next_id := db.next_id + 1 }, db.next_id) := by
  simp only [cancelPayrollRecord, hfind]
  rw [if_neg (not_not_intro hstatus)]

/-- The updated old record after a cancel is found under its id with the
cancellation fields set. -/
theorem cancel_old_record_found (db : Db) (record_id : ℤ) (reason : String)
    (actor : ℤ) (r : RecordRow)
    (hfind : findRecord db record_id = some r)
    (hfresh : ∀ x ∈ db.records, x.id < db.next_id) :
    (db.records.map (fun x =>
      if x.id == record_id then
        ({ x with
           status := "cancelled"
           cancellation_reason := some reason
           cancelled_by := some actor } : RecordRow)
      else x) ++
      ([{ id := db.next_id, group_id := r.group_id,
          employee_id := r.employee_id, period_id := r.period_id,
          version := r.version + 1, status := "draft",
          payment_date := r.payment_date, total_earnings := r.total_earnings,
          total_deductions := r.total_deductions,
          net_pay := r.net_pay }] : List RecordRow)).find?
        (fun x => x.id == record_id) =
      some { r with
             status := "cancelled"
             cancellation_reason := some reason
             cancelled_by := some actor } := by
  rw [List.find?_append]
  rw [find?_map_comm db.records
    (fun x => if x.id == record_id then
      ({ x with
         status := "cancelled"
         cancellation_reason := some reason
         cancelled_by := some actor } : RecordRow)
      else x)
    (fun x => x.id == record_id)
    (fun x => by
      dsimp only
      by_cases hx : (x.id == record_id) = true
      · rw [if_pos hx]
      · rw [if_neg hx])]
  unfold findRecord at hfind
  rw [hfind, Option.map_some']
  have hid : (r.id == record_id) = true := by
    have h := @List.find?_some _ _ _ _ hfind
    exact h
  rw [if_pos hid]
  rfl

/-- The forked draft after a cancel is found under the fresh id. -/
theorem cancel_new_record_found (db : Db) (record_id : ℤ) (reason : String)
    (actor : ℤ) (r : RecordRow)
    (hfresh : ∀ x ∈ db.records, x.id < db.next_id) :
    (db.records.map (fun x =>
      if x.id == record_id then
        ({ x with
           status := "cancelled"
           cancellation_reason := some reason
           cancelled_by := some actor } : RecordRow)
      else x) ++
      ([{ id := db.next_id, group_id := r.group_id,
          employee_id := r.employee_id, period_id := r.period_id,
          version := r.version + 1, status := "draft",
          payment_date := r.payment_date, total_earnings := r.total_earnings,
          total_deductions := r.total_deductions,
          net_pay := r.net_pay }] : List RecordRow)).find?
        (fun x => x.id == db.next_id) =
      some { id := db.next_id, group_id := r.group_id,
             employee_id := r.employee_id, period_id := r.period_id,
             version := r.version + 1, status := "draft",
             payment_date := r.payment_date,
             total_earnings := r.total_earnings,
             total_deductions := r.total_deductions,
             net_pay := r.net_pay } := by
  rw [List.find?_append]
  have hnone : (db.records.map (fun x =>
      if x.id == record_id then
        ({ x with
           status := "cancelled"
           cancellation_reason := some reason
           cancelled_by := some actor } : RecordRow)
      else x)).find? (fun x => x.id == db.next_id) = none := by
    rw [List.find?_eq_none]
    intro x hx
    obtain ⟨x0, hx0, rfl⟩ := List.mem_map.1 hx
    have hlt : x0.id < db.next_id := hfresh x0 hx0
    by_cases hc : (x0.id == record_id) = true
    · rw [if_pos hc]
      simpa using ne_of_lt hlt
    · rw [if_neg hc]
      simpa using ne_of_lt hlt
  rw [hnone, Option.none_or, List.find?_cons_of_pos _ (by simp)]

/-- The items attached to the fresh id after a cancel are exactly the
retargeted clones of the cancelled record's items. -/
theorem cancel_cloned_items (db : Db) (record_id : ℤ)
    (hfresh : ∀ x ∈ db.items, x.record_id < db.next_id) :
    (db.items ++ (itemsOf db record_id).map
      (fun i => ({ i with record_id := db.next_id } : ItemRow))).filter
        (fun i => i.record_id == db.next_id) =
      (itemsOf db record_id).map
        (fun i => ({ i with record_id := db.next_id } : ItemRow)) := by
  rw [List.filter_append]
  have h1 : db.items.filter (fun i => i.record_id == db.next_id) = [] := by
    rw [List.filter_eq_nil_iff]
    intro a ha
    simpa using ne_of_lt (hfresh a ha)
  have h2 : ((itemsOf db record_id).map
      (fun i => ({ i with record_id := db.next_id } : ItemRow))).filter
        (fun i => i.record_id == db.next_id) =
      (itemsOf db record_id).map
        (fun i => ({ i with record_id := db.next_id } : ItemRow)) := by
    rw [List.filter_eq_self]
    intro a ha
    obtain ⟨a0, ha0, rfl⟩ := List.mem_map.1 ha
    simp
  rw [h1, h2, List.nil_append]

/-! ## C5 — cancellation forks a new draft -/

/-- **C5.** Cancelling a confirmed record, in one atomic state transition:
the record becomes cancelled with the given reason and actor; a fresh draft
is created in the same group at `version+1` with the same totals whose line
items are the (retargeted) clones of the cancelled record's items; every
group row with the record's group id is repointed at the new draft; and
exactly two history rows are appended — `cancelled` on the old record and
`created_from_cancellation` on the new one with `source_record_id`
recorded.  The freshness hypotheses say primary keys never reach the
autoincrement counter. -/
theorem cancel_forks_new_draft (db : Db) (record_id : ℤ) (reason : String)
    (actor : ℤ) (r : RecordRow)
    (hfind : findRecord db record_id = some r)
    (hstatus : r.status = "confirmed")
    (hfresh_r : ∀ x ∈ db.records, x.id < db.next_id)
    (hfresh_i : ∀ x ∈ db.items, x.record_id < db.next_id) :
    ∃ db2, cancelPayrollRecord db record_id reason actor =
        Except.ok (db2, db.next_id) ∧
      findRecord db2 record_id =
        some ({ r with
                status := "cancelled"
                cancellation_reason := some reason
                cancelled_by := some actor } : RecordRow) ∧
      findRecord db2 db.next_id =
        some ({ id := db.next_id, group_id := r.group_id,
                employee_id := r.employee_id, period_id := r.period_id,
                version := r.version + 1, status := "draft",
                payment_date := r.payment_date,
                total_earnings := r.total_earnings,
                total_deductions := r.total_deductions,
                net_pay := r.net_pay } : RecordRow) ∧
      itemsOf db2 db.next_id = (itemsOf db record_id).map
        (fun i => ({ i with record_id := db.next_id } : ItemRow)) ∧
      (∀ g ∈ db2.groups, g.id = r.group_id →
        g.current_payroll_record_id = some db.next_id) ∧
      db2.history = db.history ++
        [{ record_id := record_id, action := "cancelled",
           changed_by := actor, reason := some reason },
         { record_id := db.next_id, action := "created_from_cancellation",
           changed_by := actor, source_record_id := some record_id,
           reason := some reason }] := by
  refine ⟨_, cancelPayrollRecord_ok db record_id reason actor r hfind hstatus,
    ?_, ?_, ?_, ?_, rfl⟩
  · exact cancel_old_record_found db record_id reason actor r hfind hfresh_r
  · exact cancel_new_record_found db record_id reason actor r hfresh_r
  · exact cancel_cloned_items db record_id hfresh_i
  · intro g hg hgid
    obtain ⟨g0, hg0, rfl⟩ := List.mem_map.1 hg
    by_cases hc : (g0.id == r.group_id) = true
    · rw [if_pos hc]
    · rw [if_neg hc] at hgid ⊢
      exact absurd (by rw [hgid]; simp) hc

/-- Witness for C5: cancelling the confirmed `recB` in `dbB`. -/
theorem cancel_forks_new_draft_witness :
    ∃ db2, cancelPayrollRecord dbB 10 "誤計算" 7 =
        Except.ok (db2, dbB.next_id) ∧
      findRecord db2 10 =
        some ({ recB with
                status := "cancelled"
                cancellation_reason := some "誤計算"
                cancelled_by := some 7 } : RecordRow) ∧
      findRecord db2 dbB.next_id =
        some ({ id := dbB.next_id, group_id := recB.group_id,
                employee_id := recB.employee_id, period_id := recB.period_id,
                version := recB.version + 1, status := "draft",
                payment_date := recB.payment_date,
                total_earnings := recB.total_earnings,
                total_deductions := recB.total_deductions,
                net_pay := recB.net_pay } : RecordRow) ∧
      itemsOf db2 dbB.next_id = (itemsOf dbB 10).map
        (fun i => ({ i with record_id := dbB.next_id } : ItemRow)) ∧
      (∀ g ∈ db2.groups, g.id = recB.group_id →
        g.current_payroll_record_id = some dbB.next_id) ∧
      db2.history = dbB.history ++
        [{ record_id := 10, action := "cancelled", changed_by := 7,
           reason := some "誤計算" },
         { record_id := dbB.next_id, action := "created_from_cancellation",
           changed_by := 7, source_record_id := some 10,
           reason := some "誤計算" }] :=
  cancel_forks_new_draft dbB 10 "誤計算" 7 recB (by decide) rfl
    (by decide) (by decide)

/-! ## Sum lemmas for the calculation-result segments -/

theorem sumOfType_singleton (t : String) (i : Item) :
    sumOfType t [i] = if (i.item_type == t) = true then i.amount else 0 := by
  by_cases h : (i.item_type == t) = true
  · rw [if_pos h]
    simp [sumOfType, List.filter_cons, h]
  · rw [if_neg h]
    simp only [Bool.not_eq_true] at h
    simp [sumOfType, List.filter_cons, h]

theorem sumOfType_ot_map_earning (l : List (String × String × ℤ)) :
    sumOfType "earning" (l.map (fun p =>
      ({ item_type := "earning", item_code := p.1, item_name := p.2.1,
         amount := p.2.2, is_taxable := true,
         is_social_insurance_target := false,
         is_employment_insurance_target := true } : Item))) =
      (l.map (fun p => p.2.2)).sum := by
  induction l with
  | nil => rfl
  | cons a tl ih =>
    simp only [List.map_cons, sumOfType, List.filter_cons] at ih ⊢
    simp only [List.map_cons, List.sum_cons]
    simp at ih ⊢
    omega

theorem sumOfType_ot_map_deduction (l : List (String × String × ℤ)) :
    sumOfType "deduction" (l.map (fun p =>
      ({ item_type := "earning", item_code := p.1, item_name := p.2.1,
         amount := p.2.2, is_taxable := true,
         is_social_insurance_target := false,
         is_employment_insurance_target := true } : Item))) = 0 := by
  induction l with
  | nil => rfl
  | cons a tl ih =>
    simp only [List.map_cons, sumOfType, List.filter_cons] at ih ⊢
    simp at ih ⊢
    exact ih

theorem sumOfType_allow_map_earning (l : List AllowanceRow) :
    sumOfType "earning" (l.map (fun a =>
      ({ item_type := "earning", item_code := "allowance_" ++ a.code,
         item_name := a.name, amount := a.amount, is_taxable := a.is_taxable,
         is_social_insurance_target := a.is_social_insurance_target,
         is_employment_insurance_target := a.is_employment_insurance_target }
        : Item))) = (l.map (fun a => a.amount)).sum := by
  induction l with
  | nil => rfl
  | cons a tl ih =>
    simp only [List.map_cons, sumOfType, List.filter_cons] at ih ⊢
    simp only [List.map_cons, List.sum_cons]
    simp at ih ⊢
    omega

theorem sumOfType_allow_map_deduction (l : List AllowanceRow) :
    sumOfType "deduction" (l.map (fun a =>
      ({ item_type := "earning", item_code := "allowance_" ++ a.code,
         item_name := a.name, amount := a.amount, is_taxable := a.is_taxable,
         is_social_insurance_target := a.is_social_insurance_target,
         is_employment_insurance_target := a.is_employment_insurance_target }
        : Item))) = 0 := by
  induction l with
  | nil => rfl
  | cons a tl ih =>
    simp only [List.map_cons, sumOfType, List.filter_cons] at ih ⊢
    simp at ih ⊢
    exact ih

theorem nonneg_if_pos (x : ℤ) (hx : 0 ≤ x) :
    (if 0 < x then x else 0) = x := by
  by_cases h : 0 < x
  · rw [if_pos h]
  · rw [if_neg h]
    omega

/-- The calculation result of the payroll calculator satisfies the totals
invariant: earnings total equals the sum of the earning items, deductions
total the sum of the deduction items, net pay their difference. -/
theorem calc_result_invariant (env : CalcEnv) (emp : Employee)
    (att : Option AttendanceRecord) (allw : List AllowanceRow)
    (comm : Option CommuteDetail) (d : ℤ) :
    (PayrollCalculator.calculate env emp att allw comm d).total_earnings =
      sumOfType "earning"
        (PayrollCalculator.calculate env emp att allw comm d).items ∧
    (PayrollCalculator.calculate env emp att allw comm d).total_deductions =
      sumOfType "deduction"
        (PayrollCalculator.calculate env emp att allw comm d).items ∧
    (PayrollCalculator.calculate env emp att allw comm d).net_pay =
      (PayrollCalculator.calculate env emp att allw comm d).total_earnings -
      (PayrollCalculator.calculate env emp att allw comm d).total_deductions := by
  refine ⟨?_, ?_, rfl⟩
  · simp only [PayrollCalculator.calculate]
    rw [foldl_add_eq_sum, foldl_add_eq_sum]
    simp only [sumOfType_append, sumOfType_singleton,
      sumOfType_earning_deductionItems]
    rw [sumOfType_ot_map_earning, sumOfType_allow_map_earning]
    by_cases hca : PayrollCalculator.commuteAmount comm = 0
    · rw [if_pos hca, hca]
      simp [sumOfType]
    · rw [if_neg hca]
      simp [sumOfType_singleton]
  · simp only [PayrollCalculator.calculate]
    simp only [sumOfType_append, sumOfType_singleton,
      sumOfType_deduction_deductionItems]
    rw [sumOfType_ot_map_deduction, sumOfType_allow_map_deduction]
    have hcomm : sumOfType "deduction"
        (if PayrollCalculator.commuteAmount comm = 0 then ([] : List Item)
         else [{ item_type := "earning", item_code := "commute",
                 item_name := "通勤手当",
                 amount := PayrollCalculator.commuteAmount comm,
                 is_taxable := false, is_social_insurance_target := true,
                 is_employment_insurance_target := true,
                 notes := some "非課税限度額" }]) = 0 := by
      by_cases hca : PayrollCalculator.commuteAmount comm = 0
      · rw [if_pos hca]
        rfl
      · rw [if_neg hca]
        simp [sumOfType]
    rw [hcomm]
    cases hro : emp.resident_tax_monthly_amount with
    | none => simp
    | some v =>
      by_cases hv : 0 < v
      · simp [hv]
      · simp [hv]

/-! ## Persistence of the calculation result (creation path) -/

theorem sumOfType_cons (t : String) (i : Item) (l : List Item) :
    sumOfType t (i :: l) =
      (if (i.item_type == t) = true then i.amount else 0) + sumOfType t l := by
  by_cases h : (i.item_type == t) = true
  · rw [if_pos h]
    simp [sumOfType, List.filter_cons, h]
  · rw [if_neg h]
    simp only [Bool.not_eq_true] at h
    simp [sumOfType, List.filter_cons, h]

theorem rowSumOfType_cons (t : String) (i : ItemRow) (l : List ItemRow) :
    rowSumOfType t (i :: l) =
      (if (i.item_type == t) = true then i.amount else 0) +
        rowSumOfType t l := by
  by_cases h : (i.item_type == t) = true
  · rw [if_pos h]
    simp [rowSumOfType, List.filter_cons, h]
  · rw [if_neg h]
    simp only [Bool.not_eq_true] at h
    simp [rowSumOfType, List.filter_cons, h]

theorem rowSum_enum_map (t : String) (rid : ℤ) (l : List Item) :
    ∀ n : ℕ,
      rowSumOfType t ((l.enumFrom n).map (fun p =>
        ({ record_id := rid, item_type := p.2.item_type,
           item_code := p.2.item_code, item_name := p.2.item_name,
           amount := p.2.amount, is_taxable := p.2.is_taxable,
           is_social_insurance_target := p.2.is_social_insurance_target,
           is_employment_insurance_target :=
             p.2.is_employment_insurance_target,
           display_order := (p.1 : ℤ) + 1,
           notes := p.2.notes } : ItemRow))) = sumOfType t l := by
  induction l with
  | nil => intro n; rfl
  | cons a tl ih =>
    intro n
    simp only [List.enumFrom, List.map_cons, rowSumOfType_cons, sumOfType_cons]
    rw [ih (n + 1)]

theorem find?_fresh_append (records : List RecordRow) (record : RecordRow)
    (rid : ℤ) (hid : record.id = rid)
    (hfresh : ∀ x ∈ records, x.id < rid) :
    (records ++ [record]).find? (fun x => x.id == rid) = some record := by
  rw [List.find?_append]
  have hnone : records.find? (fun x => x.id == rid) = none := by
    rw [List.find?_eq_none]
    intro x hx
    simpa using ne_of_lt (hfresh x hx)
  rw [hnone, Option.none_or, List.find?_cons_of_pos _ (by simp [hid])]

theorem filter_fresh_append (items new_items : List ItemRow) (rid : ℤ)
    (hfresh : ∀ x ∈ items, x.record_id < rid)
    (hni : ∀ x ∈ new_items, x.record_id = rid) :
    (items ++ new_items).filter (fun i => i.record_id == rid) = new_items := by
  rw [List.filter_append]
  have h1 : items.filter (fun i => i.record_id == rid) = [] := by
    rw [List.filter_eq_nil_iff]
    intro a ha
    simpa using ne_of_lt (hfresh a ha)
  have h2 : new_items.filter (fun i => i.record_id == rid) = new_items := by
    rw [List.filter_eq_self]
    intro a ha
    simp [hni a ha]
  rw [h1, h2, List.nil_append]

theorem rowSum_filter_fresh (items new_items : List ItemRow) (rid : ℤ)
    (t : String) (hfresh : ∀ x ∈ items, x.record_id < rid)
    (hni : ∀ x ∈ new_items, x.record_id = rid) :
    rowSumOfType t ((items ++ new_items).filter
      (fun i => i.record_id == rid)) = rowSumOfType t new_items := by
  rw [filter_fresh_append items new_items rid hfresh hni]

/-- A successful per-employee calculation run persists a record whose
stored totals are the calculation result's, and whose attached items carry
exactly the calculation result's per-type sums. -/
theorem calculateForEmployee_created (db : Db)
    (emp_id period_id payment_date : ℤ) (cres : CalcResult) (actor : ℤ)
    (db2 : Db) (rid : ℤ)
    (hfresh_r : ∀ x ∈ db.records, x.id < db.next_id)
    (hfresh_i : ∀ x ∈ db.items, x.record_id < db.next_id)
    (hrun : calculateForEmployee db emp_id period_id payment_date cres actor =
      (db2, some rid)) :
    ∃ rec : RecordRow, findRecord db2 rid = some rec ∧
      rec.total_earnings = cres.total_earnings ∧
      rec.total_deductions = cres.total_deductions ∧
      rec.net_pay = cres.net_pay ∧
      rowSumOfType "earning" (itemsOf db2 rid) =
        sumOfType "earning" cres.items ∧
      rowSumOfType "deduction" (itemsOf db2 rid) =
        sumOfType "deduction" cres.items := by
  cases hfound : db.groups.find?
      (fun g => g.employee_id == emp_id && g.period_id == period_id) with
  | some g =>
    simp only [calculateForEmployee, hfound] at hrun
    split at hrun
    · exact absurd (congrArg Prod.snd hrun) (by simp)
    · have hdb2 : db2 = _ := (congrArg Prod.fst hrun).symm
      have hrid : db.next_id = rid :=
        Option.some.inj (congrArg Prod.snd hrun)
      subst hdb2
      subst hrid
      refine ⟨_, find?_fresh_append db.records _ db.next_id rfl hfresh_r,
        rfl, rfl, rfl, ?_, ?_⟩
      · exact (rowSum_filter_fresh db.items _ db.next_id "earning" hfresh_i
          (by
            intro x hx
            obtain ⟨p, hp, rfl⟩ := List.mem_map.1 hx
            rfl)).trans
          (by
            simp only [List.enum]
            exact rowSum_enum_map "earning" db.next_id cres.items 0)
      · exact (rowSum_filter_fresh db.items _ db.next_id "deduction" hfresh_i
          (by
            intro x hx
            obtain ⟨p, hp, rfl⟩ := List.mem_map.1 hx
            rfl)).trans
          (by
            simp only [List.enum]
            exact rowSum_enum_map "deduction" db.next_id cres.items 0)
  | none =>
    simp only [calculateForEmployee, hfound] at hrun
    split at hrun
    · exact absurd (congrArg Prod.snd hrun) (by simp)
    · have hdb2 : db2 = _ := (congrArg Prod.fst hrun).symm
      have hrid : db.next_id + 1 = rid :=
        Option.some.inj (congrArg Prod.snd hrun)
      subst hdb2
      subst hrid
      have hfresh_r2 : ∀ x ∈ db.records, x.id < db.next_id + 1 := by
        intro x hx
        exact lt_trans (hfresh_r x hx) (by omega)
      have hfresh_i2 : ∀ x ∈ db.items, x.record_id < db.next_id + 1 := by
        intro x hx
        exact lt_trans (hfresh_i x hx) (by omega)
      refine ⟨_,
        find?_fresh_append db.records _ (db.next_id + 1) rfl hfresh_r2,
        rfl, rfl, rfl, ?_, ?_⟩
      · exact (rowSum_filter_fresh db.items _ (db.next_id + 1) "earning"
          hfresh_i2
          (by
            intro x hx
            obtain ⟨p, hp, rfl⟩ := List.mem_map.1 hx
            rfl)).trans
          (by
            simp only [List.enum]
            exact rowSum_enum_map "earning" (db.next_id + 1) cres.items 0)
      · exact (rowSum_filter_fresh db.items _ (db.next_id + 1) "deduction"
          hfresh_i2
          (by
            intro x hx
            obtain ⟨p, hp, rfl⟩ := List.mem_map.1 hx
            rfl)).trans
          (by
            simp only [List.enum]
            exact rowSum_enum_map "deduction" (db.next_id + 1) cres.items 0)

/-- Confirmation changes neither the item table nor any record's totals:
every record found afterwards corresponds to one found before with the
same three totals. -/
theorem confirmPayrollRecord_preserves (db : Db) (rid actor : ℤ) (db2 : Db)
    (hok : confirmPayrollRecord db rid actor = Except.ok db2) :
    db2.items = db.items ∧
    ∀ (x : ℤ) (rr : RecordRow), findRecord db2 x = some rr →
      ∃ r0, findRecord db x = some r0 ∧
        rr.total_earnings = r0.total_earnings ∧
        rr.total_deductions = r0.total_deductions ∧
        rr.net_pay = r0.net_pay := by
  unfold confirmPayrollRecord at hok
  split at hok
  · cases hok
  · rename_i r hfind
    split at hok
    · cases hok
    · injection hok with hok
      subst hok
      refine ⟨rfl, ?_⟩
      intro x rr hrr
      unfold findRecord at hrr ⊢
      rw [find?_map_comm db.records
        (fun rcd => if rcd.id == rid then
          ({ rcd with
             status := "confirmed"
             confirmed_by := some actor } : RecordRow)
          else rcd)
        (fun y => y.id == x)
        (fun y => by
          dsimp only
          by_cases hy : (y.id == rid) = true
          · rw [if_pos hy]
          · rw [if_neg hy])] at hrr
      cases hfr : db.records.find? (fun y => y.id == x) with
      | none => rw [hfr] at hrr; cases hrr
      | some r0 =>
        rw [hfr, Option.map_some'] at hrr
        have heq := Option.some.inj hrr
        refine ⟨r0, rfl, ?_⟩
        by_cases hy : (r0.id == rid) = true
        · rw [if_pos hy] at heq
          rw [← heq]
          exact ⟨rfl, rfl, rfl⟩
        · rw [if_neg hy] at heq
          rw [← heq]
          exact ⟨rfl, rfl, rfl⟩

theorem rowSum_cloned (db : Db) (record_id : ℤ) (t : String)
    (hfresh_i : ∀ x ∈ db.items, x.record_id < db.next_id) :
    rowSumOfType t ((db.items ++ (itemsOf db record_id).map
      (fun i => ({ i with record_id := db.next_id } : ItemRow))).filter
        (fun i => i.record_id == db.next_id)) =
      rowSumOfType t (itemsOf db record_id) := by
  rw [cancel_cloned_items db record_id hfresh_i, rowSumOfType_retarget]

/-- The draft forked by a successful cancellation satisfies the totals
invariant whenever the cancelled record did. -/
theorem cancel_fork_invariant (db : Db) (record_id : ℤ) (reason : String)
    (actor : ℤ) (db2 : Db) (nid : ℤ)
    (hfresh_r : ∀ x ∈ db.records, x.id < db.next_id)
    (hfresh_i : ∀ x ∈ db.items, x.record_id < db.next_id)
    (hrun : cancelPayrollRecord db record_id reason actor =
      Except.ok (db2, nid))
    (rold : RecordRow) (hfind : findRecord db record_id = some rold)
    (hte : rold.total_earnings = rowSumOfType "earning" (itemsOf db record_id))
    (htd : rold.total_deductions =
      rowSumOfType "deduction" (itemsOf db record_id))
    (hnp : rold.net_pay = rold.total_earnings - rold.total_deductions) :
    ∃ rnew, findRecord db2 nid = some rnew ∧
      rnew.total_earnings = rowSumOfType "earning" (itemsOf db2 nid) ∧
      rnew.total_deductions = rowSumOfType "deduction" (itemsOf db2 nid) ∧
      rnew.net_pay = rnew.total_earnings - rnew.total_deductions := by
  unfold cancelPayrollRecord at hrun
  split at hrun
  · cases hrun
  · rename_i r hfind2
    have hr : r = rold := by
      rw [hfind2] at hfind
      exact Option.some.inj hfind
    subst hr
    split at hrun
    · cases hrun
    · injection hrun with hrun
      have hdb2 : db2 = _ := (congrArg Prod.fst hrun).symm
      have hnid : db.next_id = nid := congrArg Prod.snd hrun
      subst hdb2
      subst hnid
      refine ⟨_,
        cancel_new_record_found db record_id reason actor r hfresh_r,
        ?_, ?_, by dsimp only; omega⟩
      · exact hte.trans (rowSum_cloned db record_id "earning" hfresh_i).symm
      · exact htd.trans (rowSum_cloned db record_id "deduction" hfresh_i).symm

/-! ## C4 — record totals equal the sums of their items -/

/-- **C4.** Every record the system writes satisfies
`total_earnings = Σ earning items`, `total_deductions = Σ deduction items`
and `net_pay = total_earnings − total_deductions`: (1) the calculation
result itself; (2) the record persisted from it by the calculation
endpoint, against the items written for it; (3) confirmation preserves
items and totals of every record; (4) the draft forked by cancellation,
against its cloned items.  (The invariant holds by construction at each
write; there is no separate runtime assertion in the source.) -/
theorem record_totals_verified :
    (∀ (env : CalcEnv) (emp : Employee) (att : Option AttendanceRecord)
       (allw : List AllowanceRow) (comm : Option CommuteDetail) (d : ℤ),
      (PayrollCalculator.calculate env emp att allw comm d).total_earnings =
        sumOfType "earning"
          (PayrollCalculator.calculate env emp att allw comm d).items ∧
      (PayrollCalculator.calculate env emp att allw comm d).total_deductions =
        sumOfType "deduction"
          (PayrollCalculator.calculate env emp att allw comm d).items ∧
      (PayrollCalculator.calculate env emp att allw comm d).net_pay =
        (PayrollCalculator.calculate env emp att allw comm d).total_earnings -
        (PayrollCalculator.calculate env emp att allw comm d).total_deductions) ∧
    (∀ (db : Db) (emp_id period_id payment_date : ℤ) (cres : CalcResult)
       (actor : ℤ) (db2 : Db) (rid : ℤ),
      (∀ x ∈ db.records, x.id < db.next_id) →
      (∀ x ∈ db.items, x.record_id < db.next_id) →
      calculateForEmployee db emp_id period_id payment_date cres actor =
        (db2, some rid) →
      ∃ rec : RecordRow, findRecord db2 rid = some rec ∧
        rec.total_earnings = cres.total_earnings ∧
        rec.total_deductions = cres.total_deductions ∧
        rec.net_pay = cres.net_pay ∧
        rowSumOfType "earning" (itemsOf db2 rid) =
          sumOfType "earning" cres.items ∧
        rowSumOfType "deduction" (itemsOf db2 rid) =
          sumOfType "deduction" cres.items) ∧
    (∀ (db : Db) (rid actor : ℤ) (db2 : Db),
      confirmPayrollRecord db rid actor = Except.ok db2 →
      db2.items = db.items ∧
      ∀ (x : ℤ) (rr : RecordRow), findRecord db2 x = some rr →
        ∃ r0, findRecord db x = some r0 ∧
          rr.total_earnings = r0.total_earnings ∧
          rr.total_deductions = r0.total_deductions ∧
          rr.net_pay = r0.net_pay) ∧
    (∀ (db : Db) (record_id : ℤ) (reason : String) (actor : ℤ) (db2 : Db)
       (nid : ℤ),
      (∀ x ∈ db.records, x.id < db.next_id) →
      (∀ x ∈ db.items, x.record_id < db.next_id) →
      cancelPayrollRecord db record_id reason actor =
        Except.ok (db2, nid) →
      ∀ rold, findRecord db record_id = some rold →
        rold.total_earnings =
          rowSumOfType "earning" (itemsOf db record_id) →
        rold.total_deductions =
          rowSumOfType "deduction" (itemsOf db record_id) →
        rold.net_pay = rold.total_earnings - rold.total_deductions →
        ∃ rnew, findRecord db2 nid = some rnew ∧
          rnew.total_earnings = rowSumOfType "earning" (itemsOf db2 nid) ∧
          rnew.total_deductions =
            rowSumOfType "deduction" (itemsOf db2 nid) ∧
          rnew.net_pay = rnew.total_earnings - rnew.total_deductions) :=
  ⟨calc_result_invariant,
   fun db e p pd cres actor db2 rid h1 h2 h3 =>
     calculateForEmployee_created db e p pd cres actor db2 rid h1 h2 h3,
   fun db rid actor db2 hok =>
     confirmPayrollRecord_preserves db rid actor db2 hok,
   fun db record_id reason actor db2 nid h1 h2 h3 rold h4 h5 h6 h7 =>
     cancel_fork_invariant db record_id reason actor db2 nid h1 h2 h3
       rold h4 h5 h6 h7⟩

/-- Witness for C4: confirming the draft in `dbDraft` preserves its items
and totals. -/
theorem record_totals_verified_witness :
    dbDraftConfirmed.items = dbDraft.items ∧
    (∃ r0, findRecord dbDraft 10 = some r0 ∧
      recDraftConfirmed.total_earnings = r0.total_earnings ∧
      recDraftConfirmed.total_deductions = r0.total_deductions ∧
      recDraftConfirmed.net_pay = r0.net_pay) :=
  have h := record_totals_verified.2.2.1 dbDraft 10 7 dbDraftConfirmed
    (by rfl)
  ⟨h.1, h.2 10 recDraftConfirmed (by rfl)⟩

end Kyuyo
